import Mathlib

/-!
# Verification of the calculator library

Shallow embedding of the mortgage / retirement / dividend calculators.

Modelling conventions:
* JavaScript `number` values are modelled as exact rationals (`ℚ`).
* `Math.round x` is `round x` (both compute `⌊x + 1/2⌋`, rounding halves
  towards positive infinity); `Math.round (x*100) / 100` is `round2`, and
  similarly `round1` (one decimal) and `round4` (four decimals).
* `Math.ceil` is `Int.ceil`, `Math.min` / `Math.max` are `min` / `max`,
  `Math.pow b n` with a natural exponent is `b ^ n`.
* Loop-counter variables are naturals; loan terms in years are naturals so
  that `Math.pow (1+r) (years*12)` is natural-number exponentiation.
* String-valued presentation fields (recommendation texts, formatted dates,
  currency strings) and the yearly roll-up summaries are omitted from the
  embedded result records: no claim concerns them and they feed no numeric
  output.
* Division by zero yields `0` in `ℚ` while JavaScript produces
  `Infinity`/`NaN`.  Where a modelled function can divide by zero the
  surrounding theorems carry positivity hypotheses that keep the embedding
  and the source in agreement; the spots are marked in comments.
-/

/-- `Math.round (x * 100) / 100`: round to cents. -/
def round2 (x : ℚ) : ℚ := (round (x * 100) : ℚ) / 100

/-- `Math.round (x * 10) / 10`: round to one decimal place. -/
def round1 (x : ℚ) : ℚ := (round (x * 10) : ℚ) / 10

/-- `Math.round (x * 10000) / 10000`: round to four decimal places. -/
def round4 (x : ℚ) : ℚ := (round (x * 10000) : ℚ) / 10000

/-- `Math.round x` as a rational. -/
def roundQ (x : ℚ) : ℚ := (round x : ℚ)

namespace Amortization

/-- One row of the amortization schedule
(`AmortizationPayment` in `amortization.ts`; the optional formatted
`date` string is presentation and is omitted). -/
structure AmortizationPayment where
  paymentNumber : ℕ
  payment : ℚ
  principal : ℚ
  interest : ℚ
  remainingBalance : ℚ
  cumulativePrincipal : ℚ
  cumulativeInterest : ℚ
  deriving Repr, DecidableEq

/-- `calculateMonthlyPI` from `amortization.ts`. -/
def calculateMonthlyPI (loanAmount monthlyRate : ℚ) (totalPayments : ℕ) : ℚ :=
  if monthlyRate = 0 then loanAmount / totalPayments
  else
    let factor := (1 + monthlyRate) ^ totalPayments
    loanAmount * monthlyRate * factor / (factor - 1)

/-- The mutable loop state of `calculateAmortization`:
`remainingBalance`, `cumulativePrincipal`, `cumulativeInterest`. -/
structure AmortState where
  remainingBalance : ℚ
  cumulativePrincipal : ℚ
  cumulativeInterest : ℚ
  deriving Repr, DecidableEq

/-- One iteration of the `for (paymentNum = 1; ...)` loop body of
`calculateAmortization` (the state update part). -/
def amortStep (monthlyPayment monthlyRate : ℚ) (s : AmortState) : AmortState :=
  let interestPayment := s.remainingBalance * monthlyRate
  let principalPayment := monthlyPayment - interestPayment
  let actualPrincipal := min principalPayment s.remainingBalance
  { remainingBalance := max 0 (s.remainingBalance - actualPrincipal)
    cumulativePrincipal := s.cumulativePrincipal + actualPrincipal
    cumulativeInterest := s.cumulativeInterest + interestPayment }

/-- Loop state of `calculateAmortization` after `k` iterations. -/
def amortState (loanAmount monthlyPayment monthlyRate : ℚ) : ℕ → AmortState
  | 0 => ⟨loanAmount, 0, 0⟩
  | k + 1 => amortStep monthlyPayment monthlyRate
      (amortState loanAmount monthlyPayment monthlyRate k)

/-- The schedule row pushed during iteration `k` (payment number `k+1`)
of the loop of `calculateAmortization`. -/
def amortRecord (loanAmount monthlyPayment monthlyRate : ℚ) (k : ℕ) :
    AmortizationPayment :=
  let s := amortState loanAmount monthlyPayment monthlyRate k
  let interestPayment := s.remainingBalance * monthlyRate
  let principalPayment := monthlyPayment - interestPayment
  let actualPrincipal := min principalPayment s.remainingBalance
  let s1 := amortState loanAmount monthlyPayment monthlyRate (k + 1)
  { paymentNumber := k + 1
    payment := round2 monthlyPayment
    principal := round2 actualPrincipal
    interest := round2 interestPayment
    remainingBalance := round2 s1.remainingBalance
    cumulativePrincipal := round2 s1.cumulativePrincipal
    cumulativeInterest := round2 s1.cumulativeInterest }

/-- Result of `calculateAmortization` (the `yearlySummary` roll-up is a
presentation aggregate of `schedule` and is omitted). -/
structure AmortizationResult where
  monthlyPayment : ℚ
  totalPayments : ℕ
  totalPrincipal : ℚ
  totalInterest : ℚ
  schedule : List AmortizationPayment
  deriving Repr, DecidableEq

/-- `calculateAmortization` from `amortization.ts`. -/
def calculateAmortization (loanAmount annualInterestRate : ℚ)
    (loanTermYears : ℕ) : AmortizationResult :=
  let monthlyRate := annualInterestRate / 100 / 12
  let totalPayments := loanTermYears * 12
  let monthlyPayment := calculateMonthlyPI loanAmount monthlyRate totalPayments
  let fin := amortState loanAmount monthlyPayment monthlyRate totalPayments
  { monthlyPayment := round2 monthlyPayment
    totalPayments := totalPayments
    totalPrincipal := round2 fin.cumulativePrincipal
    totalInterest := round2 fin.cumulativeInterest
    schedule := (List.range totalPayments).map
      (amortRecord loanAmount monthlyPayment monthlyRate) }

end Amortization

namespace MonthlyPayment

/-- Inputs of `calculateMonthlyPayment` in `monthlyPayment.ts`
(the optional `hoaMonthly` and `pmiRate` default to `0` at call sites). -/
structure MonthlyPaymentInputs where
  homePrice : ℚ
  downPayment : ℚ
  annualInterestRate : ℚ
  loanTermYears : ℕ
  propertyTaxAnnual : ℚ
  homeownersInsuranceAnnual : ℚ
  hoaMonthly : ℚ
  pmiRate : ℚ
  deriving Repr, DecidableEq

/-- `MonthlyPaymentResult` from `monthlyPayment.ts`. -/
structure MonthlyPaymentResult where
  loanAmount : ℚ
  monthlyPrincipalAndInterest : ℚ
  monthlyPropertyTax : ℚ
  monthlyInsurance : ℚ
  monthlyPMI : ℚ
  monthlyHOA : ℚ
  totalMonthlyPayment : ℚ
  downPaymentPercent : ℚ
  totalInterestPaid : ℚ
  totalPayments : ℕ
  deriving Repr, DecidableEq

/-- `calculateMonthlyPayment` from `monthlyPayment.ts`.
The `downPaymentPercent = downPayment / homePrice * 100` division is by zero
when `homePrice = 0` (JavaScript would give `Infinity`/`NaN`); theorems about
this function assume `homePrice ≠ 0`. -/
def calculateMonthlyPayment (i : MonthlyPaymentInputs) : MonthlyPaymentResult :=
  let loanAmount := i.homePrice - i.downPayment
  let downPaymentPercent := i.downPayment / i.homePrice * 100
  let monthlyRate := i.annualInterestRate / 100 / 12
  let totalPayments := i.loanTermYears * 12
  let monthlyPrincipalAndInterest :=
    if monthlyRate = 0 then loanAmount / totalPayments
    else
      let factor := (1 + monthlyRate) ^ totalPayments
      loanAmount * monthlyRate * factor / (factor - 1)
  let monthlyPropertyTax := i.propertyTaxAnnual / 12
  let monthlyInsurance := i.homeownersInsuranceAnnual / 12
  let monthlyPMI :=
    if downPaymentPercent < 20 ∧ 0 < i.pmiRate then
      loanAmount * (i.pmiRate / 100) / 12
    else 0
  let totalMonthlyPayment := monthlyPrincipalAndInterest + monthlyPropertyTax +
    monthlyInsurance + monthlyPMI + i.hoaMonthly
  let totalInterestPaid := monthlyPrincipalAndInterest * totalPayments - loanAmount
  { loanAmount := roundQ loanAmount
    monthlyPrincipalAndInterest := round2 monthlyPrincipalAndInterest
    monthlyPropertyTax := round2 monthlyPropertyTax
    monthlyInsurance := round2 monthlyInsurance
    monthlyPMI := round2 monthlyPMI
    monthlyHOA := round2 i.hoaMonthly
    totalMonthlyPayment := round2 totalMonthlyPayment
    downPaymentPercent := round1 downPaymentPercent
    totalInterestPaid := roundQ totalInterestPaid
    totalPayments := totalPayments }

end MonthlyPayment

namespace Affordability

/-- Inputs of `calculateAffordability` in `affordability.ts`; the optional
rate fields (`propertyTaxRate`, `homeownersInsuranceRate`, `pmiRate`,
`hoaMonthly`) are stored explicitly, callers supply the source defaults
(`1.2`, `0.35`, `0.5`, `0`) where needed. -/
structure AffordabilityInputs where
  annualGrossIncome : ℚ
  monthlyDebtPayments : ℚ
  downPaymentAvailable : ℚ
  monthlySavingsAvailable : ℚ
  annualInterestRate : ℚ
  loanTermYears : ℕ
  propertyTaxRate : ℚ
  homeownersInsuranceRate : ℚ
  pmiRate : ℚ
  hoaMonthly : ℚ
  deriving Repr, DecidableEq

/-- `MonthlyBreakdown` from `affordability.ts`. -/
structure MonthlyBreakdown where
  principalAndInterest : ℚ
  propertyTax : ℚ
  homeownersInsurance : ℚ
  pmi : ℚ
  hoa : ℚ
  total : ℚ
  deriving Repr, DecidableEq

/-- `calculateMonthlyBreakdown` from `affordability.ts`. -/
def calculateMonthlyBreakdown (loanAmount homePrice annualRate : ℚ)
    (termYears : ℕ)
    (propertyTaxRate insuranceRate downPaymentPercent pmiRate hoaMonthly : ℚ) :
    MonthlyBreakdown :=
  let monthlyRate := annualRate / 100 / 12
  let totalPayments := termYears * 12
  let principalAndInterest :=
    if monthlyRate = 0 then loanAmount / totalPayments
    else
      let factor := (1 + monthlyRate) ^ totalPayments
      loanAmount * monthlyRate * factor / (factor - 1)
  let propertyTax := homePrice * propertyTaxRate / 100 / 12
  let homeownersInsurance := homePrice * insuranceRate / 100 / 12
  let pmi := if downPaymentPercent < 20 then loanAmount * pmiRate / 100 / 12 else 0
  let total := principalAndInterest + propertyTax + homeownersInsurance + pmi +
    hoaMonthly
  { principalAndInterest := principalAndInterest
    propertyTax := propertyTax
    homeownersInsurance := homeownersInsurance
    pmi := pmi
    hoa := hoaMonthly
    total := total }

/-- The monthly total tested by the binary search of `findMaxHomePrice` at a
candidate price `x`: loan amount clamped at `0`, down-payment percentage
recomputed from the fixed available down payment.
The `dp / x * 100` division is by zero at `x = 0`; there the clamped loan
amount is `0` so every field agrees with the JavaScript value anyway. -/
def searchTotal (dp annualRate : ℚ) (termYears : ℕ)
    (propertyTaxRate insuranceRate pmiRate hoaMonthly : ℚ) (x : ℚ) : ℚ :=
  (calculateMonthlyBreakdown (max 0 (x - dp)) x annualRate termYears
    propertyTaxRate insuranceRate (dp / x * 100) pmiRate hoaMonthly).total

/-- One iteration of the 50-round binary search in `findMaxHomePrice`. -/
def bisectStep (maxMonthlyPayment dp annualRate : ℚ) (termYears : ℕ)
    (propertyTaxRate insuranceRate pmiRate hoaMonthly : ℚ)
    (lh : ℚ × ℚ) : ℚ × ℚ :=
  let mid := (lh.1 + lh.2) / 2
  if searchTotal dp annualRate termYears propertyTaxRate insuranceRate pmiRate
      hoaMonthly mid < maxMonthlyPayment then
    (mid, lh.2)
  else
    (lh.1, mid)

/-- The `(low, high)` pair after `k` iterations of the binary search of
`findMaxHomePrice` (`low = 0`, `high = maxMonthlyPayment * 12 * 30`
initially). -/
def bisectIter (maxMonthlyPayment dp annualRate : ℚ) (termYears : ℕ)
    (propertyTaxRate insuranceRate pmiRate hoaMonthly : ℚ) : ℕ → ℚ × ℚ
  | 0 => (0, maxMonthlyPayment * 12 * 30)
  | k + 1 => bisectStep maxMonthlyPayment dp annualRate termYears
      propertyTaxRate insuranceRate pmiRate hoaMonthly
      (bisectIter maxMonthlyPayment dp annualRate termYears propertyTaxRate
        insuranceRate pmiRate hoaMonthly k)

/-- `findMaxHomePrice` from `affordability.ts`: the `low` end of the bracket
after exactly 50 bisection iterations. -/
def findMaxHomePrice (maxMonthlyPayment dp annualRate : ℚ) (termYears : ℕ)
    (propertyTaxRate insuranceRate pmiRate hoaMonthly : ℚ) : ℚ :=
  (bisectIter maxMonthlyPayment dp annualRate termYears propertyTaxRate
    insuranceRate pmiRate hoaMonthly 50).1

/-- `calculateAffordabilityScore` from `affordability.ts`. -/
def calculateAffordabilityScore (frontEndRatio backEndRatio downPaymentPercent
    debtToIncomeRatio : ℚ) : ℚ :=
  let s1 : ℚ := 100
  let s2 := if 28 < frontEndRatio then s1 - min 30 ((frontEndRatio - 28) * 3) else s1
  let s3 := if 36 < backEndRatio then s2 - min 30 ((backEndRatio - 36) * 3) else s2
  let s4 :=
    if 20 ≤ downPaymentPercent then s3 + 10
    else if downPaymentPercent < 10 then s3 - 15 else s3
  let s5 := if 15 < debtToIncomeRatio then s4 - min 20 ((debtToIncomeRatio - 15) * 2)
    else s4
  max 0 (min 100 (roundQ s5))

/-- The `availableForHousing` quantity computed inside `calculateAffordability`:
`min (monthlyIncome * 0.28) (monthlyIncome * 0.36 - monthlyDebtPayments)`. -/
def availableForHousing (i : AffordabilityInputs) : ℚ :=
  let monthlyIncome := i.annualGrossIncome / 12
  min (monthlyIncome * (28 / 100)) (monthlyIncome * (36 / 100) - i.monthlyDebtPayments)

/-- `AffordabilityResult` from `affordability.ts` (the `recommendations`
string list is presentation and is omitted). -/
structure AffordabilityResult where
  maxHomePrice : ℚ
  maxMonthlyPayment : ℚ
  monthlyIncome : ℚ
  frontEndRatio : ℚ
  backEndRatio : ℚ
  downPaymentPercent : ℚ
  loanAmount : ℚ
  estimatedMonthlyBreakdown : MonthlyBreakdown
  canAffordHome : Bool
  affordabilityScore : ℚ
  savingsNeededForDownPayment : ℚ
  monthsToSaveForDownPayment : ℚ
  deriving Repr, DecidableEq

/-- `calculateAffordability` from `affordability.ts`.
When the solver returns `0` the recomputed `downPaymentPercent` divides by
zero (`0` here, `Infinity`/`NaN` in JavaScript); the theorems below either
assume a positive solver result or only talk about fields unaffected by it. -/
def calculateAffordability (i : AffordabilityInputs) : AffordabilityResult :=
  let monthlyIncome := i.annualGrossIncome / 12
  let afh := availableForHousing i
  let maxHomePrice := findMaxHomePrice (max 0 afh) i.downPaymentAvailable
    i.annualInterestRate i.loanTermYears i.propertyTaxRate
    i.homeownersInsuranceRate i.pmiRate i.hoaMonthly
  let downPaymentPercent := i.downPaymentAvailable / maxHomePrice * 100
  let loanAmount := maxHomePrice - i.downPaymentAvailable
  let monthlyBreakdown := calculateMonthlyBreakdown loanAmount maxHomePrice
    i.annualInterestRate i.loanTermYears i.propertyTaxRate
    i.homeownersInsuranceRate downPaymentPercent i.pmiRate i.hoaMonthly
  let frontEndRatio := monthlyBreakdown.total / monthlyIncome * 100
  let backEndRatio := (monthlyBreakdown.total + i.monthlyDebtPayments) /
    monthlyIncome * 100
  let canAffordHome := decide (0 < afh) && decide (0 < maxHomePrice)
  let affordabilityScore := calculateAffordabilityScore frontEndRatio
    backEndRatio downPaymentPercent (i.monthlyDebtPayments / monthlyIncome)
  let idealDownPayment := maxHomePrice * (20 / 100)
  let savingsNeededForDownPayment := max 0 (idealDownPayment - i.downPaymentAvailable)
  let monthsToSaveForDownPayment : ℚ :=
    if 0 < savingsNeededForDownPayment ∧ 0 < i.monthlySavingsAvailable then
      (⌈savingsNeededForDownPayment / i.monthlySavingsAvailable⌉ : ℤ)
    else if 0 < savingsNeededForDownPayment then -1 else 0
  { maxHomePrice := roundQ maxHomePrice
    maxMonthlyPayment := round2 monthlyBreakdown.total
    monthlyIncome := roundQ monthlyIncome
    frontEndRatio := round1 frontEndRatio
    backEndRatio := round1 backEndRatio
    downPaymentPercent := round1 downPaymentPercent
    loanAmount := roundQ loanAmount
    estimatedMonthlyBreakdown :=
      { principalAndInterest := round2 monthlyBreakdown.principalAndInterest
        propertyTax := round2 monthlyBreakdown.propertyTax
        homeownersInsurance := round2 monthlyBreakdown.homeownersInsurance
        pmi := round2 monthlyBreakdown.pmi
        hoa := round2 monthlyBreakdown.hoa
        total := round2 monthlyBreakdown.total }
    canAffordHome := canAffordHome
    affordabilityScore := affordabilityScore
    savingsNeededForDownPayment := roundQ savingsNeededForDownPayment
    monthsToSaveForDownPayment := monthsToSaveForDownPayment }

end Affordability

namespace Refinance

/-- Inputs of `calculateRefinance` in `refinance.ts`.  Loan terms are natural
numbers of years; `yearsRemainingOnCurrentLoan` may be fractional (the source
applies `Math.ceil` to it) and is assumed nonnegative. -/
structure RefinanceInputs where
  currentLoanAmount : ℚ
  currentInterestRate : ℚ
  currentLoanTermYears : ℕ
  yearsRemainingOnCurrentLoan : ℚ
  newInterestRate : ℚ
  newLoanTermYears : ℕ
  closingCosts : ℚ
  cashOutAmount : ℚ
  monthlySavingsGoal : ℚ
  deriving Repr, DecidableEq

/-- `CumulativeSavings` from `refinance.ts`. -/
structure CumulativeSavings where
  year : ℕ
  cumulativeMonthlySavings : ℚ
  cumulativeInterestDifference : ℚ
  netPosition : ℚ
  deriving Repr, DecidableEq

/-- The module-local `calculateMonthlyPayment` helper of `refinance.ts`. -/
def calculateMonthlyPayment (loanAmount annualRate : ℚ) (termYears : ℕ) : ℚ :=
  let monthlyRate := annualRate / 100 / 12
  let totalPayments := termYears * 12
  if monthlyRate = 0 then loanAmount / totalPayments
  else
    let factor := (1 + monthlyRate) ^ totalPayments
    loanAmount * monthlyRate * factor / (factor - 1)

/-- The module-local `calculateTotalInterest` helper of `refinance.ts`. -/
def calculateTotalInterest (loanAmount annualRate : ℚ) (termYears : ℕ) : ℚ :=
  let monthlyPayment := calculateMonthlyPayment loanAmount annualRate termYears
  let totalPayments := termYears * 12
  monthlyPayment * totalPayments - loanAmount

/-- The `(balance, totalInterest)` state of the month loop in
`calculateInterestOverPeriod`, after the given number of iterations. -/
def interestGo (monthlyRate monthlyPayment : ℚ) : ℕ → ℚ × ℚ → ℚ × ℚ
  | 0, s => s
  | k + 1, s =>
    let interest := s.1 * monthlyRate
    let principal := monthlyPayment - interest
    interestGo monthlyRate monthlyPayment k (max 0 (s.1 - principal), s.2 + interest)

/-- `calculateInterestOverPeriod` from `refinance.ts`. -/
def calculateInterestOverPeriod (loanAmount annualRate : ℚ) (years : ℕ) : ℚ :=
  let monthlyRate := annualRate / 100 / 12
  let totalPayments := years * 12
  let monthlyPayment := calculateMonthlyPayment loanAmount annualRate years
  (interestGo monthlyRate monthlyPayment totalPayments (loanAmount, 0)).2

/-- The year loop of `generateCumulativeSavings`: `rem` years remain, the
next produced entry is for `year`, and `cum` is the running
`cumulativeMonthlySavings` (seeded with `-closingCosts`). -/
def genCumulativeGo (currentLoanAmount currentRate : ℚ)
    (currentRemainingYears : ℕ) (newLoanAmount newRate : ℚ)
    (newTermYears : ℕ) (monthlySavings : ℚ) :
    ℕ → ℕ → ℚ → List CumulativeSavings
  | 0, _, _ => []
  | rem + 1, year, cum =>
    let cum1 := if year ≤ currentRemainingYears ∧ 0 < monthlySavings then
      cum + monthlySavings * 12 else cum
    let currentInterest := if year ≤ currentRemainingYears then
      calculateInterestOverPeriod currentLoanAmount currentRate year
    else
      calculateInterestOverPeriod currentLoanAmount currentRate currentRemainingYears
    let newInterest := calculateInterestOverPeriod newLoanAmount newRate
      (min year newTermYears)
    let cumulativeInterestDifference := currentInterest - newInterest
    let netPosition := cum1 + cumulativeInterestDifference * (1 / 2)
    { year := year
      cumulativeMonthlySavings := roundQ cum1
      cumulativeInterestDifference := roundQ cumulativeInterestDifference
      netPosition := roundQ netPosition } ::
      genCumulativeGo currentLoanAmount currentRate currentRemainingYears
        newLoanAmount newRate newTermYears monthlySavings rem (year + 1) cum1

/-- `generateCumulativeSavings` from `refinance.ts`. -/
def generateCumulativeSavings (currentLoanAmount currentRate : ℚ)
    (currentRemainingYears : ℕ) (newLoanAmount newRate : ℚ)
    (newTermYears : ℕ) (closingCosts monthlySavings : ℚ) :
    List CumulativeSavings :=
  let maxYears := max currentRemainingYears newTermYears
  genCumulativeGo currentLoanAmount currentRate currentRemainingYears
    newLoanAmount newRate newTermYears monthlySavings maxYears 1 (-closingCosts)

/-- `RefinanceResult` from `refinance.ts`. -/
structure RefinanceResult where
  currentMonthlyPayment : ℚ
  newMonthlyPayment : ℚ
  monthlySavings : ℚ
  totalClosingCosts : ℚ
  breakEvenMonths : ℚ
  breakEvenYears : ℚ
  totalInterestSaved : ℚ
  totalInterestSavedOverTerm : ℚ
  isWorthRefinancing : Bool
  currentTotalInterestRemaining : ℚ
  newTotalInterest : ℚ
  newLoanAmount : ℚ
  cumulativeSavings : List CumulativeSavings
  deriving Repr, DecidableEq

/-- The pre-rounding `monthlySavings` computed inside `calculateRefinance`:
current payment (remaining balance over the ceiling of the remaining years at
the current rate) minus the new payment. -/
def rawMonthlySavings (i : RefinanceInputs) : ℚ :=
  calculateMonthlyPayment i.currentLoanAmount i.currentInterestRate
    (⌈i.yearsRemainingOnCurrentLoan⌉.toNat) -
  calculateMonthlyPayment (i.currentLoanAmount + i.cashOutAmount)
    i.newInterestRate i.newLoanTermYears

/-- `calculateRefinance` from `refinance.ts`.  `Math.ceil` of the remaining
years is modelled as `Int.ceil` followed by `Int.toNat` (they agree for the
nonnegative values the calculator is used with). -/
def calculateRefinance (i : RefinanceInputs) : RefinanceResult :=
  let ceilYears := (⌈i.yearsRemainingOnCurrentLoan⌉ : ℤ).toNat
  let currentMonthlyPayment := calculateMonthlyPayment i.currentLoanAmount
    i.currentInterestRate ceilYears
  let newLoanAmount := i.currentLoanAmount + i.cashOutAmount
  let newMonthlyPayment := calculateMonthlyPayment newLoanAmount
    i.newInterestRate i.newLoanTermYears
  let monthlySavings := currentMonthlyPayment - newMonthlyPayment
  let breakEvenMonths : ℚ :=
    if 0 < monthlySavings then (⌈i.closingCosts / monthlySavings⌉ : ℤ) else -1
  let currentTotalInterestRemaining := calculateTotalInterest i.currentLoanAmount
    i.currentInterestRate ceilYears
  let newTotalInterest := calculateTotalInterest newLoanAmount i.newInterestRate
    i.newLoanTermYears
  let totalInterestSaved := currentTotalInterestRemaining - newTotalInterest
  let cumulativeSavings := generateCumulativeSavings i.currentLoanAmount
    i.currentInterestRate ceilYears newLoanAmount i.newInterestRate
    i.newLoanTermYears i.closingCosts monthlySavings
  let comparisonYears := min ceilYears i.newLoanTermYears
  let totalInterestSavedOverTerm :=
    calculateInterestOverPeriod i.currentLoanAmount i.currentInterestRate
      comparisonYears -
    calculateInterestOverPeriod newLoanAmount i.newInterestRate comparisonYears
  let isWorthRefinancing := decide (0 < monthlySavings) &&
    decide (0 < breakEvenMonths) && decide (breakEvenMonths < 120)
  { currentMonthlyPayment := round2 currentMonthlyPayment
    newMonthlyPayment := round2 newMonthlyPayment
    monthlySavings := round2 monthlySavings
    totalClosingCosts := i.closingCosts
    breakEvenMonths := breakEvenMonths
    breakEvenYears := round1 (breakEvenMonths / 12)
    totalInterestSaved := roundQ totalInterestSaved
    totalInterestSavedOverTerm := roundQ totalInterestSavedOverTerm
    isWorthRefinancing := isWorthRefinancing
    currentTotalInterestRemaining := roundQ currentTotalInterestRemaining
    newTotalInterest := roundQ newTotalInterest
    newLoanAmount := roundQ newLoanAmount
    cumulativeSavings := cumulativeSavings }

end Refinance

namespace Fire

/-- `FIREInputs` from `compoundInterest.ts`. -/
structure FIREInputs where
  annualIncome : ℚ
  annualExpenses : ℚ
  currentSavings : ℚ
  expectedReturn : ℚ
  safeWithdrawalRate : ℚ
  deriving Repr, DecidableEq

/-- `YearlyProjection` from `compoundInterest.ts`. -/
structure YearlyProjection where
  year : ℕ
  savings : ℚ
  interestEarned : ℚ
  totalSavings : ℚ
  deriving Repr, DecidableEq

/-- The `while (savings < target && years < maxYears)` loop of
`calculateYearsToTarget`: with `fuel` remaining iterations allowed and
current `savings`, returns how many iterations the loop still performs. -/
def yearsToTargetGo (annualSavings returnRate target : ℚ) : ℕ → ℚ → ℕ
  | 0, _ => 0
  | fuel + 1, savings =>
    if savings < target then
      yearsToTargetGo annualSavings returnRate target fuel
        (savings + savings * returnRate + annualSavings) + 1
    else 0

/-- `calculateYearsToTarget` from `compoundInterest.ts` (`maxYears = 100`). -/
def calculateYearsToTarget (currentSavings annualSavings returnRate target : ℚ) :
    ℕ :=
  yearsToTargetGo annualSavings returnRate target 100 currentSavings

/-- The year loop of `generateProjections`, producing entries from `year`
for `rem` more years, with running `savings`. -/
def generateProjectionsGo (currentSavingsStart annualSavings returnRate : ℚ) :
    ℕ → ℕ → ℚ → List YearlyProjection
  | 0, _, _ => []
  | rem + 1, year, savings =>
    let interestEarned := savings * returnRate
    let savings1 := savings + interestEarned + annualSavings
    { year := year
      savings := roundQ (annualSavings * year + currentSavingsStart)
      interestEarned := roundQ interestEarned
      totalSavings := roundQ savings1 } ::
      generateProjectionsGo currentSavingsStart annualSavings returnRate rem
        (year + 1) savings1

/-- `generateProjections` from `compoundInterest.ts`. -/
def generateProjections (currentSavings annualSavings returnRate : ℚ)
    (years : ℕ) : List YearlyProjection :=
  generateProjectionsGo currentSavings annualSavings returnRate years 1
    currentSavings

/-- The internal `yearsToRetirement` of `calculateFIRE` before the final
record is assembled.  JavaScript stores `Infinity` for the unreachable case;
it is modelled as `none`. -/
def fireYearsInternal (i : FIREInputs) : Option ℚ :=
  let annualSavings := i.annualIncome - i.annualExpenses
  let fireNumber := i.annualExpenses / (i.safeWithdrawalRate / 100)
  let r := i.expectedReturn / 100
  if annualSavings ≤ 0 ∧ i.currentSavings < fireNumber then none
  else if fireNumber ≤ i.currentSavings then some 0
  else some (calculateYearsToTarget i.currentSavings annualSavings r fireNumber : ℕ)

/-- `FIREResult` from `compoundInterest.ts`. -/
structure FIREResult where
  yearsToRetirement : ℚ
  fireNumber : ℚ
  annualSavings : ℚ
  savingsRate : ℚ
  monthlySavings : ℚ
  projections : List YearlyProjection
  deriving Repr, DecidableEq

/-- `calculateFIRE` from `compoundInterest.ts`.
`fireNumber = annualExpenses / (safeWithdrawalRate / 100)` divides by zero
when `safeWithdrawalRate = 0` (JavaScript gives `Infinity`); theorems assume
`0 < safeWithdrawalRate`.  Likewise `savingsRate` divides by `annualIncome`.
For the `Infinity` branch, `Math.min(Math.ceil(Infinity) + 5, 50) = 50`
projection years in JavaScript. -/
def calculateFIRE (i : FIREInputs) : FIREResult :=
  let annualSavings := i.annualIncome - i.annualExpenses
  let monthlySavings := annualSavings / 12
  let savingsRate := annualSavings / i.annualIncome * 100
  let fireNumber := i.annualExpenses / (i.safeWithdrawalRate / 100)
  let r := i.expectedReturn / 100
  let internal := fireYearsInternal i
  let projYears : ℕ := match internal with
    | none => 50
    | some y => min (⌈y⌉.toNat + 5) 50
  let projections := generateProjections i.currentSavings annualSavings r projYears
  { yearsToRetirement := match internal with
      | none => -1
      | some y => round1 y
    fireNumber := roundQ fireNumber
    annualSavings := roundQ annualSavings
    savingsRate := round1 savingsRate
    monthlySavings := roundQ monthlySavings
    projections := projections }

end Fire

namespace Dividend

/-- `DividendFrequency` from `dividendCalculator.ts`. -/
inductive DividendFrequency where
  | monthly | quarterly | semiannual | annual | unknown
  deriving Repr, DecidableEq

/-- `DividendData` from `dividendCalculator.ts`.  The `exDate` date string is
reduced to its calendar year — `new Date(exDate).getFullYear()` — which is
the only part of the date `calculateGrowthRate` reads. -/
structure DividendData where
  exDateYear : ℤ
  amount : ℚ
  deriving Repr, DecidableEq

/-- The distinct calendar years present in a dividend list, sorted
ascending, mirroring `Array.from(yearlyDividends.keys()).sort((a, b) => a - b)`
(insertion sort is used as the model of the JavaScript sort; only the sorted
result matters). -/
def sortedYears (dividends : List DividendData) : List ℤ :=
  ((dividends.map (·.exDateYear)).dedup).insertionSort (· ≤ ·)

/-- The summed dividend total of one calendar year, mirroring the
`yearlyDividends` map of `calculateGrowthRate`. -/
def yearTotal (dividends : List DividendData) (year : ℤ) : ℚ :=
  ((dividends.filter (·.exDateYear = year)).map (·.amount)).sum

/-- `calculateGrowthRate` from `dividendCalculator.ts`: group by calendar
year, sum, take year-over-year relative changes where the previous year's
total exceeds `0.01`, keep changes strictly inside `(-0.9, 2.0)`, and
average. -/
def calculateGrowthRate (dividends : List DividendData) : ℚ :=
  if dividends.length < 2 then 0
  else
    let years := sortedYears dividends
    if years.length < 2 then 0
    else
      let growthRates := (years.zip years.tail).filterMap fun p =>
        let prevYearTotal := yearTotal dividends p.1
        let currYearTotal := yearTotal dividends p.2
        if 1 / 100 < prevYearTotal then
          let growthRate := (currYearTotal - prevYearTotal) / prevYearTotal
          if -(9 / 10) < growthRate ∧ growthRate < 2 then some growthRate
          else none
        else none
      if growthRates = [] then 0
      else growthRates.sum / growthRates.length

/-- Spec-side rendering of C7 exactly as claimed: group by calendar year,
sum, take every year-over-year relative change, discard the changes outside
the open interval `(-0.9, 2.0)`, average the rest, `0` when fewer than two
qualifying years exist.  (No guard on the size of the previous year's
total — that is what the claim omits.) -/
def growthRateClaimedSpec (dividends : List DividendData) : ℚ :=
  let years := sortedYears dividends
  if years.length < 2 then 0
  else
    let changes := (years.zip years.tail).map fun p =>
      (yearTotal dividends p.2 - yearTotal dividends p.1) / yearTotal dividends p.1
    let qualifying := changes.filter fun g => decide (-(9 / 10) < g ∧ g < 2)
    if qualifying = [] then 0 else qualifying.sum / qualifying.length

/-- Spec-side rendering of C7 as amended: year-over-year changes are only
formed when the previous year's total exceeds `0.01`, then the changes
outside `(-0.9, 2.0)` are discarded and the rest averaged (`0` with fewer
than two years or no surviving change). -/
def growthRateAmendedSpec (dividends : List DividendData) : ℚ :=
  if dividends.length < 2 then 0
  else
    let years := sortedYears dividends
    if years.length < 2 then 0
    else
      let changes := (years.zip years.tail).filterMap fun p =>
        if 1 / 100 < yearTotal dividends p.1 then
          some ((yearTotal dividends p.2 - yearTotal dividends p.1) /
            yearTotal dividends p.1)
        else none
      let qualifying := changes.filter fun g => decide (-(9 / 10) < g ∧ g < 2)
      if qualifying = [] then 0 else qualifying.sum / qualifying.length

/-- `StockInfo` from `dividendCalculator.ts` (string presentation fields
`symbol`, `name`, `currency`, `exchange` omitted). -/
structure StockInfo where
  price : ℚ
  deriving Repr, DecidableEq

/-- `DividendHistory` from `dividendCalculator.ts`. -/
structure DividendHistory where
  dividends : List DividendData
  stockInfo : StockInfo
  dividendFrequency : DividendFrequency
  dividendsPerPeriod : ℚ
  annualDividend : ℚ
  dividendYield : ℚ
  averageGrowthRate : ℚ
  deriving Repr, DecidableEq

/-- `DividendCalculatorInputs` from `dividendCalculator.ts`; `none` for
`growthRate` means "use the historical rate" (`null` in the source), and
`none` for `priceGrowthRate` covers `null`/`undefined`. -/
structure DividendCalculatorInputs where
  shares : ℚ
  years : ℕ
  growthRate : Option ℚ
  dripEnabled : Bool
  priceGrowthRate : Option ℚ
  deriving Repr, DecidableEq

/-- `DividendProjection` from `dividendCalculator.ts` (all fields are always
set by the DRIP projector, so the two optional fields are plain here). -/
structure DividendProjection where
  year : ℕ
  projectedAnnualDividend : ℚ
  projectedQuarterlyDividend : ℚ
  totalDividendsReceived : ℚ
  cumulativeDividends : ℚ
  sharesOwned : ℚ
  newSharesFromDRIP : ℚ
  deriving Repr, DecidableEq

/-- The mutable loop state of `calculateDividendProjectionsWithDRIP`. -/
structure DripState where
  currentShares : ℚ
  currentAnnualDividendPerShare : ℚ
  currentStockPrice : ℚ
  cumulativeDividends : ℚ
  totalNewShares : ℚ
  deriving Repr, DecidableEq

/-- One year of the DRIP loop: receive dividends on the current shares,
reinvest at the current price, then grow dividend and price for next year. -/
def dripStep (dividendGrowthRate priceGrowthRate : ℚ) (s : DripState) :
    DripState :=
  let projectedAnnualDividend := s.currentAnnualDividendPerShare * s.currentShares
  let newSharesFromDRIP := projectedAnnualDividend / s.currentStockPrice
  { currentShares := s.currentShares + newSharesFromDRIP
    currentAnnualDividendPerShare :=
      s.currentAnnualDividendPerShare * (1 + dividendGrowthRate)
    currentStockPrice := s.currentStockPrice * (1 + priceGrowthRate)
    cumulativeDividends := s.cumulativeDividends + projectedAnnualDividend
    totalNewShares := s.totalNewShares + newSharesFromDRIP }

/-- DRIP loop state after `k` simulated years. -/
def dripState (shares annualDividend price dividendGrowthRate priceGrowthRate : ℚ) :
    ℕ → DripState
  | 0 => ⟨shares, annualDividend, price, 0, 0⟩
  | k + 1 => dripStep dividendGrowthRate priceGrowthRate
      (dripState shares annualDividend price dividendGrowthRate priceGrowthRate k)

/-- The projection row pushed during year `k+1` of the DRIP loop (it reads
the state before that year's update). -/
def dripRecord (shares annualDividend price dividendGrowthRate priceGrowthRate : ℚ)
    (k : ℕ) : DividendProjection :=
  let s := dripState shares annualDividend price dividendGrowthRate
    priceGrowthRate k
  let projectedAnnualDividend := s.currentAnnualDividendPerShare * s.currentShares
  let newSharesFromDRIP := projectedAnnualDividend / s.currentStockPrice
  { year := k + 1
    projectedAnnualDividend := round2 projectedAnnualDividend
    projectedQuarterlyDividend := round2 (projectedAnnualDividend / 4)
    totalDividendsReceived := round2 projectedAnnualDividend
    cumulativeDividends := round2 (s.cumulativeDividends + projectedAnnualDividend)
    sharesOwned := round4 s.currentShares
    newSharesFromDRIP := round4 newSharesFromDRIP }

/-- `DividendCalculatorResult` from `dividendCalculator.ts`, restricted to
the DRIP projector (which always sets the DRIP-specific optional fields). -/
structure DividendCalculatorResult where
  stockInfo : StockInfo
  dividendFrequency : DividendFrequency
  dividendsPerPeriod : ℚ
  annualDividend : ℚ
  dividendYield : ℚ
  historicalGrowthRate : ℚ
  projections : List DividendProjection
  totalProjectedDividends : ℚ
  totalInvestment : ℚ
  dripEnabled : Bool
  finalSharesOwned : ℚ
  totalNewSharesFromDRIP : ℚ
  finalPortfolioValue : ℚ
  deriving Repr, DecidableEq

/-- The effective dividend growth rate used by the DRIP projector:
the user-provided percentage, or the historical average. -/
def effectiveDividendGrowthRate (info : DividendHistory)
    (i : DividendCalculatorInputs) : ℚ :=
  match i.growthRate with
  | some g => g / 100
  | none => info.averageGrowthRate

/-- The effective stock price growth rate used by the DRIP projector:
the user-provided percentage, or the effective dividend growth rate. -/
def effectivePriceGrowthRate (info : DividendHistory)
    (i : DividendCalculatorInputs) : ℚ :=
  match i.priceGrowthRate with
  | some q => q / 100
  | none => effectiveDividendGrowthRate info i

/-- `calculateDividendProjectionsWithDRIP` from `dividendCalculator.ts`.
`newShares = dividend / currentStockPrice` divides by zero when the price is
zero; theorems assume a nonzero price (and a price-growth factor that keeps
it nonzero). -/
def calculateDividendProjectionsWithDRIP (info : DividendHistory)
    (i : DividendCalculatorInputs) : DividendCalculatorResult :=
  let g := effectiveDividendGrowthRate info i
  let q := effectivePriceGrowthRate info i
  let fin := dripState i.shares info.annualDividend info.stockInfo.price g q
    i.years
  { stockInfo := info.stockInfo
    dividendFrequency := info.dividendFrequency
    dividendsPerPeriod := info.dividendsPerPeriod
    annualDividend := info.annualDividend
    dividendYield := info.dividendYield
    historicalGrowthRate := info.averageGrowthRate
    projections := (List.range i.years).map
      (dripRecord i.shares info.annualDividend info.stockInfo.price g q)
    totalProjectedDividends := round2 fin.cumulativeDividends
    totalInvestment := round2 (info.stockInfo.price * i.shares)
    dripEnabled := true
    finalSharesOwned := round4 fin.currentShares
    totalNewSharesFromDRIP := round4 fin.totalNewShares
    finalPortfolioValue := round2 (fin.currentShares * fin.currentStockPrice) }

end Dividend

/-! ## Concrete inputs used by counterexamples and witnesses -/

/-- Affordability input with a large income, `$200.10` of down payment, a
zero-rate one-year loan, PMI at the `0.5` default, and `$35933` of monthly
debt, placing the housing budget just inside the PMI jump of the search. -/
def c2Base : Affordability.AffordabilityInputs :=
  { annualGrossIncome := 1200000
    monthlyDebtPayments := 35933
    downPaymentAvailable := 2001 / 10
    monthlySavingsAvailable := 0
    annualInterestRate := 0
    loanTermYears := 1
    propertyTaxRate := 0
    homeownersInsuranceRate := 0
    pmiRate := 1 / 2
    hoaMonthly := 0 }

/-- The same input as `c2Base` with slightly larger debt: the budget drops
from `67` to `91671781965824/1368251953125 ≈ 66.9992`, aligning the search
grid with the PMI discontinuity at price `1000.5`. -/
def c2Higher : Affordability.AffordabilityInputs :=
  { c2Base with monthlyDebtPayments := 36000 - 91671781965824 / 1368251953125 }

/-- Affordability input whose `$1000` monthly HOA fee alone exceeds the 28%
housing budget of a `$1000` monthly income, so no candidate price is
affordable although `availableForHousing` is positive. -/
def c4Input : Affordability.AffordabilityInputs :=
  { annualGrossIncome := 12000
    monthlyDebtPayments := 0
    downPaymentAvailable := 0
    monthlySavingsAvailable := 0
    annualInterestRate := 0
    loanTermYears := 1
    propertyTaxRate := 0
    homeownersInsuranceRate := 0
    pmiRate := 0
    hoaMonthly := 1000 }

/-- Monthly-payment input with a 10% down payment and a PMI rate small
enough that the monthly PMI is under half a cent. -/
def c5Input : MonthlyPayment.MonthlyPaymentInputs :=
  { homePrice := 100
    downPayment := 10
    annualInterestRate := 0
    loanTermYears := 1
    propertyTaxAnnual := 0
    homeownersInsuranceAnnual := 0
    hoaMonthly := 0
    pmiRate := 1 / 20 }

/-- Monthly-payment input with exactly 20% down. -/
def c5ExactInput : MonthlyPayment.MonthlyPaymentInputs :=
  { homePrice := 100
    downPayment := 20
    annualInterestRate := 0
    loanTermYears := 1
    propertyTaxAnnual := 0
    homeownersInsuranceAnnual := 0
    hoaMonthly := 0
    pmiRate := 1 / 2 }

/-- Zero-rate monthly-payment input whose exact payment `1000/360` is not a
whole number of cents. -/
def c6Input : MonthlyPayment.MonthlyPaymentInputs :=
  { homePrice := 1000
    downPayment := 0
    annualInterestRate := 0
    loanTermYears := 30
    propertyTaxAnnual := 0
    homeownersInsuranceAnnual := 0
    hoaMonthly := 0
    pmiRate := 0 }

/-- Refinance input whose current rate of `0.005%` makes the raw monthly
saving about `$0.0027`: both payments round to `$100.00` while the raw
saving stays positive. -/
def c3Input : Refinance.RefinanceInputs :=
  { currentLoanAmount := 1200
    currentInterestRate := 1 / 200
    currentLoanTermYears := 1
    yearsRemainingOnCurrentLoan := 1
    newInterestRate := 0
    newLoanTermYears := 1
    closingCosts := 8000
    cashOutAmount := 0
    monthlySavingsGoal := 100 }

/-- Refinance input with identical current and new loans, so the monthly
saving is exactly zero. -/
def c3ZeroInput : Refinance.RefinanceInputs :=
  { currentLoanAmount := 120000
    currentInterestRate := 0
    currentLoanTermYears := 10
    yearsRemainingOnCurrentLoan := 1
    newInterestRate := 0
    newLoanTermYears := 1
    closingCosts := 5000
    cashOutAmount := 0
    monthlySavingsGoal := 100 }

/-- Refinance input for the `breakEvenYears` sentinel check (zero saving). -/
def c10Input : Refinance.RefinanceInputs :=
  { currentLoanAmount := 60000
    currentInterestRate := 0
    currentLoanTermYears := 5
    yearsRemainingOnCurrentLoan := 1
    newInterestRate := 0
    newLoanTermYears := 1
    closingCosts := 2000
    cashOutAmount := 0
    monthlySavingsGoal := 100 }

/-- Dividend series with yearly totals `0.005, 0.006, 1, 1.5`: the first
two transitions are in-range (`+20%`, then a huge jump) but the code only
keeps the `+50%` transition because the earlier previous-year totals do not
exceed `0.01`. -/
def c7Series : List Dividend.DividendData :=
  [⟨2020, 1 / 200⟩, ⟨2021, 3 / 500⟩, ⟨2022, 1⟩, ⟨2023, 3 / 2⟩]

/-- Synthetic dividend series from the claim: one year-over-year jump above
`+200%` (`10 → 40`), one drop below `-90%` (`40 → 2`), and one well-behaved
`+20%` transition (`2 → 2.4`). -/
def c7Synthetic : List Dividend.DividendData :=
  [⟨2019, 10⟩, ⟨2020, 40⟩, ⟨2021, 2⟩, ⟨2022, 12 / 5⟩]

/-- Dividend history for the DRIP witness: `$100` share price, `$5` annual
dividend per share. -/
def c9Info : Dividend.DividendHistory :=
  { dividends := []
    stockInfo := { price := 100 }
    dividendFrequency := Dividend.DividendFrequency.quarterly
    dividendsPerPeriod := 5 / 4
    annualDividend := 5
    dividendYield := 5
    averageGrowthRate := 0 }

/-- DRIP calculator inputs for the witness: 10 shares, 2 years, 10%
dividend growth, flat share price. -/
def c9Inputs : Dividend.DividendCalculatorInputs :=
  { shares := 10
    years := 2
    growthRate := some 10
    dripEnabled := true
    priceGrowthRate := some 0 }

/-- FIRE input with negative annual savings and savings far below the FIRE
number. -/
def c8Input : Fire.FIREInputs :=
  { annualIncome := 50000
    annualExpenses := 60000
    currentSavings := 0
    expectedReturn := 7
    safeWithdrawalRate := 4 }

/-! ## Shared rounding lemmas -/

attribute [local semireducible] Rat.mul Rat.inv Rat.add Rat.sub

lemma roundQ_mono {x y : ℚ} (h : x ≤ y) : roundQ x ≤ roundQ y := by
  unfold roundQ
  have : round x ≤ round y := by
    rw [round_eq, round_eq]
    exact Int.floor_le_floor (by linarith)
  exact_mod_cast this

lemma round2_mono {x y : ℚ} (h : x ≤ y) : round2 x ≤ round2 y := by
  unfold round2
  have h100 : round (x * 100) ≤ round (y * 100) := by
    rw [round_eq, round_eq]
    exact Int.floor_le_floor (by linarith)
  have : ((round (x * 100) : ℤ) : ℚ) ≤ ((round (y * 100) : ℤ) : ℚ) := by
    exact_mod_cast h100
  linarith

lemma abs_round2_sub (x : ℚ) : |round2 x - x| ≤ 1 / 200 := by
  unfold round2
  have h := abs_sub_round (x * 100)
  rw [abs_sub_comm] at h
  obtain ⟨h1, h2⟩ := abs_le.mp h
  exact abs_le.mpr ⟨by linarith, by linarith⟩

lemma round2_zero : round2 0 = 0 := by
  unfold round2
  norm_num

lemma round1_le_of_lt {x c : ℚ} {m : ℤ} (hm : (m : ℚ) = c * 10) (h : x < c) :
    round1 x ≤ c := by
  unfold round1
  have h10 : round (x * 10) ≤ m := by
    rw [round_eq]
    have hlt : ⌊x * 10 + 1 / 2⌋ < m + 1 := by
      apply Int.floor_lt.mpr
      push_cast
      linarith
    omega
  have : ((round (x * 10) : ℤ) : ℚ) ≤ (m : ℚ) := by exact_mod_cast h10
  rw [hm] at this
  linarith

/-! ## C1: amortization schedule shape and invariants -/

namespace Amortization

lemma calculateMonthlyPI_zero (L : ℚ) (n : ℕ) :
    calculateMonthlyPI L 0 n = L / n := by
  simp [calculateMonthlyPI]

lemma calculateMonthlyPI_pos (L r : ℚ) (n : ℕ) (hr : r ≠ 0) :
    calculateMonthlyPI L r n = L * r * (1 + r) ^ n / ((1 + r) ^ n - 1) := by
  simp [calculateMonthlyPI, hr]

/-- Closed form of the amortization loop state for a zero monthly rate:
after `k ≤ n` payments the balance is `L - k * (L / n)` and the cumulative
principal is `k * (L / n)`. -/
lemma amortState_zero_rate (L : ℚ) (n : ℕ) (hL : 0 < L) (hn : n ≠ 0) :
    ∀ k, k ≤ n →
      (amortState L (L / n) 0 k).remainingBalance = L - k * (L / n) ∧
      (amortState L (L / n) 0 k).cumulativePrincipal = k * (L / n) := by
  have hnQ : (0 : ℚ) < n := by
    exact_mod_cast Nat.pos_of_ne_zero hn
  have hLn : 0 < L / n := div_pos hL hnQ
  intro k
  induction k with
  | zero => intro _; simp [amortState]
  | succ k ih =>
    intro hk1
    have hk : k ≤ n := Nat.le_of_succ_le hk1
    obtain ⟨hbal, hcum⟩ := ih hk
    have hkn : (k : ℚ) + 1 ≤ n := by exact_mod_cast hk1
    have hmin : min (L / n) (L - k * (L / n)) = L / n := by
      apply min_eq_left
      have : (k : ℚ) * (L / n) + 1 * (L / n) ≤ n * (L / n) := by
        rw [← add_mul]
        exact mul_le_mul_of_nonneg_right hkn hLn.le
      have hnL : (n : ℚ) * (L / n) = L := by
        field_simp
      linarith
    have hnext : 0 ≤ L - k * (L / n) - L / n := by
      have : (k : ℚ) * (L / n) + 1 * (L / n) ≤ n * (L / n) := by
        rw [← add_mul]
        exact mul_le_mul_of_nonneg_right hkn hLn.le
      have hnL : (n : ℚ) * (L / n) = L := by
        field_simp
      linarith
    constructor
    · show (amortStep (L / n) 0 (amortState L (L / n) 0 k)).remainingBalance = _
      simp only [amortStep, hbal, hcum, mul_zero, sub_zero, hmin]
      rw [max_eq_right hnext]
      push_cast
      ring
    · show (amortStep (L / n) 0 (amortState L (L / n) 0 k)).cumulativePrincipal = _
      simp only [amortStep, hbal, hcum, mul_zero, sub_zero, hmin]
      push_cast
      ring

/-- Closed form of the amortization loop state for a positive monthly rate
and the standard annuity payment: after `k ≤ n` payments the balance is
`L * (f - (1+r)^k) / (f - 1)` with `f = (1+r)^n`, and principal repaid so
far is the complement.  The `min`/`max` clamps of the loop never bind. -/
lemma amortState_pos_rate (L r : ℚ) (n : ℕ) (hL : 0 < L) (hr : 0 < r)
    (hn : n ≠ 0) :
    ∀ k, k ≤ n →
      (amortState L (L * r * (1 + r) ^ n / ((1 + r) ^ n - 1)) r k).remainingBalance
        = L * ((1 + r) ^ n - (1 + r) ^ k) / ((1 + r) ^ n - 1) ∧
      (amortState L (L * r * (1 + r) ^ n / ((1 + r) ^ n - 1)) r k).cumulativePrincipal
        = L - L * ((1 + r) ^ n - (1 + r) ^ k) / ((1 + r) ^ n - 1) := by
  set g : ℚ := 1 + r with hg
  set f : ℚ := g ^ n with hf
  have hg1 : 1 < g := by rw [hg]; linarith
  have hf1 : 1 < f := one_lt_pow₀ hg1 hn
  have hfne : f - 1 ≠ 0 := by linarith
  set pay : ℚ := L * r * f / (f - 1) with hpay
  have key : ∀ k : ℕ, ∀ b : ℚ, b = L * (f - g ^ k) / (f - 1) →
      b - (pay - b * r) = L * (f - g ^ (k + 1)) / (f - 1) := by
    intro k b hb
    rw [hb, hpay, pow_succ]
    field_simp
    ring_nf
  intro k
  induction k with
  | zero =>
    intro _
    have hb0 : L * (f - g ^ 0) / (f - 1) = L := by
      rw [pow_zero, mul_div_assoc, div_self hfne, mul_one]
    constructor
    · show L = _
      rw [hb0]
    · show (0 : ℚ) = _
      rw [hb0, sub_self]
  | succ k ih =>
    intro hk1
    have hk : k ≤ n := Nat.le_of_succ_le hk1
    obtain ⟨hbal, hcum⟩ := ih hk
    have hnum1 : 0 ≤ f - g ^ (k + 1) := by
      rw [hf]
      have := pow_le_pow_right₀ hg1.le hk1
      linarith
    have hnext : 0 ≤ L * (f - g ^ (k + 1)) / (f - 1) :=
      div_nonneg (mul_nonneg hL.le hnum1) (by linarith)
    have hkey := key k _ hbal
    have hmin : min (pay - (amortState L pay r k).remainingBalance * r)
        (amortState L pay r k).remainingBalance =
        pay - (amortState L pay r k).remainingBalance * r := by
      apply min_eq_left
      nlinarith [hkey, hnext]
    constructor
    · show (amortStep pay r (amortState L pay r k)).remainingBalance = _
      simp only [amortStep, hmin]
      rw [max_eq_right (by nlinarith [hkey, hnext])]
      nlinarith [hkey]
    · show (amortStep pay r (amortState L pay r k)).cumulativePrincipal = _
      simp only [amortStep, hmin]
      rw [hcum, hbal]
      nlinarith [hkey, hbal]

/-- Balance monotonicity, zero final balance, and full principal repayment
for the amortization loop at the payment computed by `calculateMonthlyPI`,
for any nonnegative monthly rate. -/
lemma amortState_facts (L r : ℚ) (n : ℕ) (hL : 0 < L) (hr : 0 ≤ r)
    (hn : n ≠ 0) :
    (∀ i j, i ≤ j → j ≤ n →
      (amortState L (calculateMonthlyPI L r n) r j).remainingBalance ≤
      (amortState L (calculateMonthlyPI L r n) r i).remainingBalance) ∧
    (amortState L (calculateMonthlyPI L r n) r n).remainingBalance = 0 ∧
    (amortState L (calculateMonthlyPI L r n) r n).cumulativePrincipal = L := by
  have hnQ : (0 : ℚ) < n := by exact_mod_cast Nat.pos_of_ne_zero hn
  rcases eq_or_lt_of_le hr with hr0 | hrpos
  · -- zero monthly rate
    subst hr0
    rw [calculateMonthlyPI_zero]
    have hz := amortState_zero_rate L n hL hn
    have hLn : 0 < L / n := div_pos hL hnQ
    refine ⟨?_, ?_, ?_⟩
    · intro i j hij hjn
      rw [(hz j hjn).1, (hz i (le_trans hij hjn)).1]
      have : (i : ℚ) ≤ j := by exact_mod_cast hij
      nlinarith
    · rw [(hz n le_rfl).1]
      field_simp
    · rw [(hz n le_rfl).2]
      field_simp
  · -- positive monthly rate
    rw [calculateMonthlyPI_pos L r n (ne_of_gt hrpos)]
    have hp := amortState_pos_rate L r n hL hrpos hn
    have hg1 : (1 : ℚ) < 1 + r := by linarith
    have hf1 : (1 : ℚ) < (1 + r) ^ n := one_lt_pow₀ hg1 hn
    refine ⟨?_, ?_, ?_⟩
    · intro i j hij hjn
      rw [(hp j hjn).1, (hp i (le_trans hij hjn)).1]
      have hpow : (1 + r) ^ i ≤ (1 + r) ^ j := pow_le_pow_right₀ hg1.le hij
      apply div_le_div_of_nonneg_right _ (by linarith)
      nlinarith
    · rw [(hp n le_rfl).1]
      simp
    · rw [(hp n le_rfl).2]
      simp

end Amortization

/-- C1: for every valid amortization input (`loanAmount > 0`,
`annualInterestRate ≥ 0`, integer `loanTermYears > 0`),
`calculateAmortization` returns a schedule of exactly `loanTermYears * 12`
rows (one per loop iteration, no early exit), the `remainingBalance` column
is monotonically non-increasing, and at the final row the balance is within
the `0.01 * n` rounding tolerance of `0` while `cumulativePrincipal` is
within that tolerance of the loan amount. -/
theorem amortization_schedule_complete (L rate : ℚ) (Y : ℕ)
    (hL : 0 < L) (hrate : 0 ≤ rate) (hY : 1 ≤ Y) :
    (Amortization.calculateAmortization L rate Y).schedule.length = Y * 12 ∧
    (∀ i j : ℕ, i ≤ j →
      ∀ hi : i < (Amortization.calculateAmortization L rate Y).schedule.length,
      ∀ hj : j < (Amortization.calculateAmortization L rate Y).schedule.length,
      ((Amortization.calculateAmortization L rate Y).schedule.get ⟨j, hj⟩).remainingBalance ≤
        ((Amortization.calculateAmortization L rate Y).schedule.get ⟨i, hi⟩).remainingBalance) ∧
    (∃ lastRow, (Amortization.calculateAmortization L rate Y).schedule.getLast? =
        some lastRow ∧
      |lastRow.remainingBalance - 0| ≤ 1 / 100 * ((Y * 12 : ℕ) : ℚ) ∧
      |lastRow.cumulativePrincipal - L| ≤ 1 / 100 * ((Y * 12 : ℕ) : ℚ)) := by
  classical
  set n : ℕ := Y * 12 with hn
  have hn0 : n ≠ 0 := by omega
  set r : ℚ := rate / 100 / 12 with hrdef
  have hr : 0 ≤ r := by positivity
  set pay : ℚ := Amortization.calculateMonthlyPI L r n with hpay
  obtain ⟨hmono, hbaln, hcumn⟩ := Amortization.amortState_facts L r n hL hr hn0
  have hsched : (Amortization.calculateAmortization L rate Y).schedule =
      (List.range n).map (Amortization.amortRecord L pay r) := rfl
  have hlen : (Amortization.calculateAmortization L rate Y).schedule.length = n := by
    rw [hsched, List.length_map, List.length_range]
  have hget : ∀ (k : ℕ) (hk : k < (Amortization.calculateAmortization L rate Y).schedule.length),
      (Amortization.calculateAmortization L rate Y).schedule.get ⟨k, hk⟩ =
        Amortization.amortRecord L pay r k := by
    intro k hk
    rw [List.get_eq_getElem]
    simp only [hsched, List.getElem_map, List.getElem_range]
  have hrb : ∀ k, (Amortization.amortRecord L pay r k).remainingBalance =
      round2 ((Amortization.amortState L pay r (k + 1)).remainingBalance) := fun _ => rfl
  have hcp : ∀ k, (Amortization.amortRecord L pay r k).cumulativePrincipal =
      round2 ((Amortization.amortState L pay r (k + 1)).cumulativePrincipal) := fun _ => rfl
  have hnQ : (12 : ℚ) ≤ (n : ℚ) := by
    have : 12 ≤ n := by omega
    exact_mod_cast this
  refine ⟨hlen, ?_, ?_⟩
  · intro i j hij hi hj
    rw [hget i hi, hget j hj, hrb, hrb]
    apply round2_mono
    apply hmono (i + 1) (j + 1) (by omega)
    have := hj
    rw [hlen] at this
    omega
  · have hne : (Amortization.calculateAmortization L rate Y).schedule ≠ [] := by
      intro hcontra
      have := hlen
      rw [hcontra] at this
      simp at this
      omega
    refine ⟨Amortization.amortRecord L pay r (n - 1), ?_, ?_, ?_⟩
    · rw [List.getLast?_eq_getElem?]
      rw [hlen]
      have hlt : n - 1 < (Amortization.calculateAmortization L rate Y).schedule.length := by
        rw [hlen]; omega
      rw [List.getElem?_eq_getElem hlt]
      congr 1
      simp only [hsched, List.getElem_map, List.getElem_range]
    · rw [hrb]
      have : n - 1 + 1 = n := by omega
      rw [this, hbaln, round2_zero]
      simp
    · rw [hcp]
      have : n - 1 + 1 = n := by omega
      rw [this, hcumn]
      calc |round2 L - L| ≤ 1 / 200 := abs_round2_sub L
      _ ≤ 1 / 100 * (n : ℚ) := by linarith

/-- C1 witness: a concrete one-year zero-rate loan instantiating
`amortization_schedule_complete`. -/
theorem amortization_schedule_complete_witness :
    (Amortization.calculateAmortization 1200 0 1).schedule.length = 1 * 12 :=
  (amortization_schedule_complete 1200 0 1 (by norm_num) (by norm_num)
    (by norm_num)).1

/-! ## C2 / C4: the affordability binary search -/

namespace Affordability

/-- The principal-and-interest component of `calculateMonthlyBreakdown` is
linear in the loan amount, with a nonnegative coefficient whenever the rate
is nonnegative and the term is nonzero. -/
lemma mb_pi_linear (la hp annualRate : ℚ) (Y : ℕ)
    (ptr ir dpp pr hoa la' hp' dpp' : ℚ)
    (hla : la ≤ la') (hr : 0 ≤ annualRate) (hY : Y ≠ 0) :
    (calculateMonthlyBreakdown la hp annualRate Y ptr ir dpp pr hoa).principalAndInterest ≤
    (calculateMonthlyBreakdown la' hp' annualRate Y ptr ir dpp' pr hoa).principalAndInterest := by
  show (if annualRate / 100 / 12 = 0 then la / ((Y * 12 : ℕ) : ℚ)
      else la * (annualRate / 100 / 12) * (1 + annualRate / 100 / 12) ^ (Y * 12) /
        ((1 + annualRate / 100 / 12) ^ (Y * 12) - 1)) ≤
    (if annualRate / 100 / 12 = 0 then la' / ((Y * 12 : ℕ) : ℚ)
      else la' * (annualRate / 100 / 12) * (1 + annualRate / 100 / 12) ^ (Y * 12) /
        ((1 + annualRate / 100 / 12) ^ (Y * 12) - 1))
  set mr : ℚ := annualRate / 100 / 12 with hmr
  by_cases h0 : mr = 0
  · rw [if_pos h0, if_pos h0]
    have hn : (0 : ℚ) < ((Y * 12 : ℕ) : ℚ) := by
      have : 0 < Y * 12 := by omega
      exact_mod_cast this
    exact div_le_div_of_nonneg_right hla hn.le
  · rw [if_neg h0, if_neg h0]
    have hmrpos : 0 < mr := lt_of_le_of_ne (by positivity) (Ne.symm h0)
    have hn12 : Y * 12 ≠ 0 := by omega
    have hf1 : (1 : ℚ) < (1 + mr) ^ (Y * 12) := one_lt_pow₀ (by linarith) hn12
    have hden : (0 : ℚ) < (1 + mr) ^ (Y * 12) - 1 := by linarith
    apply div_le_div_of_nonneg_right _ hden.le
    have hcoef : 0 ≤ mr * (1 + mr) ^ (Y * 12) := by positivity
    calc la * mr * (1 + mr) ^ (Y * 12) = la * (mr * (1 + mr) ^ (Y * 12)) := by ring
    _ ≤ la' * (mr * (1 + mr) ^ (Y * 12)) := mul_le_mul_of_nonneg_right hla hcoef
    _ = la' * mr * (1 + mr) ^ (Y * 12) := by ring

/-- The principal-and-interest component vanishes at loan amount `0`. -/
lemma mb_pi_zero (hp annualRate : ℚ) (Y : ℕ) (ptr ir dpp pr hoa : ℚ) :
    (calculateMonthlyBreakdown 0 hp annualRate Y ptr ir dpp pr hoa).principalAndInterest = 0 := by
  show (if annualRate / 100 / 12 = 0 then (0 : ℚ) / ((Y * 12 : ℕ) : ℚ)
      else 0 * (annualRate / 100 / 12) * (1 + annualRate / 100 / 12) ^ (Y * 12) /
        ((1 + annualRate / 100 / 12) ^ (Y * 12) - 1)) = 0
  by_cases h0 : annualRate / 100 / 12 = 0 <;> simp [h0]

/-- `searchTotal` is monotone in the candidate home price, for nonnegative
parameters. -/
lemma searchTotal_mono (dp annualRate : ℚ) (Y : ℕ)
    (ptr ir pr hoa : ℚ)
    (hdp : 0 ≤ dp) (hr : 0 ≤ annualRate) (hY : Y ≠ 0)
    (hptr : 0 ≤ ptr) (hir : 0 ≤ ir) (hpr : 0 ≤ pr)
    {x y : ℚ} (hx : 0 ≤ x) (hxy : x ≤ y) :
    searchTotal dp annualRate Y ptr ir pr hoa x ≤
    searchTotal dp annualRate Y ptr ir pr hoa y := by
  unfold searchTotal
  have htotal : ∀ la hp dpp : ℚ,
      (calculateMonthlyBreakdown la hp annualRate Y ptr ir dpp pr hoa).total =
      (calculateMonthlyBreakdown la hp annualRate Y ptr ir dpp pr hoa).principalAndInterest +
        hp * ptr / 100 / 12 + hp * ir / 100 / 12 +
        (if dpp < 20 then la * pr / 100 / 12 else 0) + hoa := by
    intro la hp dpp
    rfl
  rw [htotal, htotal]
  have hpi := mb_pi_linear (max 0 (x - dp)) x annualRate Y ptr ir (dp / x * 100)
    pr hoa (max 0 (y - dp)) y (dp / y * 100)
    (max_le_max le_rfl (by linarith)) hr hY
  have htax : x * ptr / 100 / 12 ≤ y * ptr / 100 / 12 := by
    have := mul_le_mul_of_nonneg_right hxy hptr
    linarith
  have hins : x * ir / 100 / 12 ≤ y * ir / 100 / 12 := by
    have := mul_le_mul_of_nonneg_right hxy hir
    linarith
  have hpmi : (if dp / x * 100 < 20 then max 0 (x - dp) * pr / 100 / 12 else 0) ≤
      (if dp / y * 100 < 20 then max 0 (y - dp) * pr / 100 / 12 else 0) := by
    have hrhs_nonneg : (0 : ℚ) ≤
        (if dp / y * 100 < 20 then max 0 (y - dp) * pr / 100 / 12 else 0) := by
      split
      · positivity
      · exact le_rfl
    by_cases hxc : dp / x * 100 < 20
    · rw [if_pos hxc]
      by_cases hxdp : x ≤ dp
      · have : max 0 (x - dp) = 0 := max_eq_left (by linarith)
        rw [this]
        simpa using hrhs_nonneg
      · push_neg at hxdp
        have hx0 : 0 < x := lt_of_le_of_lt hdp hxdp
        have hy0 : 0 < y := lt_of_lt_of_le hx0 hxy
        have hdx : dp * 100 < 20 * x := by
          rw [div_mul_eq_mul_div, div_lt_iff hx0] at hxc
          linarith
        have hyc : dp / y * 100 < 20 := by
          rw [div_mul_eq_mul_div, div_lt_iff hy0]
          nlinarith
        rw [if_pos hyc]
        have hmax : max 0 (x - dp) ≤ max 0 (y - dp) := max_le_max le_rfl (by linarith)
        have := mul_le_mul_of_nonneg_right hmax hpr
        linarith
    · rw [if_neg hxc]
      exact hrhs_nonneg
  linarith

end Affordability

namespace Affordability

/-- Invariants of the 50-round binary search of `findMaxHomePrice`, after
any number of iterations: the bracket stays ordered inside
`[0, maxMonthlyPayment * 12 * 30]`, halves at each step, the low end (once
moved) has total below budget and the high end (once moved) does not. -/
lemma bisectIter_inv (mm dp annualRate : ℚ) (Y : ℕ) (ptr ir pr hoa : ℚ)
    (hmm : 0 ≤ mm) : ∀ k : ℕ,
    0 ≤ (bisectIter mm dp annualRate Y ptr ir pr hoa k).1 ∧
    (bisectIter mm dp annualRate Y ptr ir pr hoa k).1 ≤
      (bisectIter mm dp annualRate Y ptr ir pr hoa k).2 ∧
    (bisectIter mm dp annualRate Y ptr ir pr hoa k).2 ≤ mm * 12 * 30 ∧
    (bisectIter mm dp annualRate Y ptr ir pr hoa k).2 -
      (bisectIter mm dp annualRate Y ptr ir pr hoa k).1 = mm * 12 * 30 / 2 ^ k ∧
    ((bisectIter mm dp annualRate Y ptr ir pr hoa k).1 = 0 ∨
      searchTotal dp annualRate Y ptr ir pr hoa
        (bisectIter mm dp annualRate Y ptr ir pr hoa k).1 < mm) ∧
    ((bisectIter mm dp annualRate Y ptr ir pr hoa k).2 = mm * 12 * 30 ∨
      ¬ searchTotal dp annualRate Y ptr ir pr hoa
        (bisectIter mm dp annualRate Y ptr ir pr hoa k).2 < mm) := by
  intro k
  induction k with
  | zero =>
    have hz : bisectIter mm dp annualRate Y ptr ir pr hoa 0 = (0, mm * 12 * 30) := rfl
    rw [hz]
    refine ⟨le_rfl, by simp; nlinarith, le_rfl, by norm_num, Or.inl rfl, Or.inl rfl⟩
  | succ k ih =>
    obtain ⟨h0, hlh, hhi, hgap, hlow, hhigh⟩ := ih
    set p := bisectIter mm dp annualRate Y ptr ir pr hoa k with hp
    have hstep : bisectIter mm dp annualRate Y ptr ir pr hoa (k + 1) =
        bisectStep mm dp annualRate Y ptr ir pr hoa p := rfl
    rw [hstep]
    unfold bisectStep
    by_cases hc : searchTotal dp annualRate Y ptr ir pr hoa ((p.1 + p.2) / 2) < mm
    · rw [if_pos hc]
      refine ⟨by linarith, by simp; linarith, by simp; linarith, ?_, ?_, ?_⟩
      · show p.2 - (p.1 + p.2) / 2 = mm * 12 * 30 / 2 ^ (k + 1)
        rw [pow_succ]
        rw [show mm * 12 * 30 / (2 ^ k * 2) = mm * 12 * 30 / 2 ^ k / 2 by
          rw [div_div]]
        linarith
      · exact Or.inr hc
      · exact hhigh
    · rw [if_neg hc]
      refine ⟨by simpa using h0, by simp; linarith, by simp; linarith, ?_, ?_, ?_⟩
      · show (p.1 + p.2) / 2 - p.1 = mm * 12 * 30 / 2 ^ (k + 1)
        rw [pow_succ]
        rw [show mm * 12 * 30 / (2 ^ k * 2) = mm * 12 * 30 / 2 ^ k / 2 by
          rw [div_div]]
        linarith
      · exact hlow
      · exact Or.inr hc

/-- Unfolding the binary search in chunks: `m + n` iterations are `n`
iterations of `bisectStep` on top of `m` iterations. -/
lemma bisectIter_add (mm dp annualRate : ℚ) (Y : ℕ) (ptr ir pr hoa : ℚ)
    (m n : ℕ) :
    bisectIter mm dp annualRate Y ptr ir pr hoa (m + n) =
      (bisectStep mm dp annualRate Y ptr ir pr hoa)^[n]
        (bisectIter mm dp annualRate Y ptr ir pr hoa m) := by
  induction n with
  | zero => rfl
  | succ n ih =>
    rw [← Nat.add_assoc]
    show bisectStep mm dp annualRate Y ptr ir pr hoa
      (bisectIter mm dp annualRate Y ptr ir pr hoa (m + n)) = _
    rw [ih, Function.iterate_succ_apply']

/-- Near-monotonicity of `findMaxHomePrice` in the budget: a smaller budget
can exceed the larger-budget result by at most one grid step
`B1 * 12 * 30 / 2 ^ 50` of the larger-budget search. -/
lemma findMaxHomePrice_near_mono (dp annualRate : ℚ) (Y : ℕ)
    (ptr ir pr hoa : ℚ)
    (hdp : 0 ≤ dp) (hr : 0 ≤ annualRate) (hY : Y ≠ 0)
    (hptr : 0 ≤ ptr) (hir : 0 ≤ ir) (hpr : 0 ≤ pr)
    {B1 B2 : ℚ} (hB2 : 0 ≤ B2) (hB21 : B2 ≤ B1) :
    findMaxHomePrice B2 dp annualRate Y ptr ir pr hoa ≤
      findMaxHomePrice B1 dp annualRate Y ptr ir pr hoa +
        B1 * 12 * 30 / 2 ^ 50 := by
  have hB1 : 0 ≤ B1 := le_trans hB2 hB21
  obtain ⟨h10, h1lh, h1hi, h1gap, h1low, h1high⟩ :=
    bisectIter_inv B1 dp annualRate Y ptr ir pr hoa hB1 50
  obtain ⟨h20, h2lh, h2hi, h2gap, h2low, h2high⟩ :=
    bisectIter_inv B2 dp annualRate Y ptr ir pr hoa hB2 50
  set p1 := bisectIter B1 dp annualRate Y ptr ir pr hoa 50 with hp1
  set p2 := bisectIter B2 dp annualRate Y ptr ir pr hoa 50 with hp2
  show p2.1 ≤ p1.1 + B1 * 12 * 30 / 2 ^ 50
  by_contra hgt
  push_neg at hgt
  have hh1 : p1.2 = p1.1 + B1 * 12 * 30 / 2 ^ 50 := by linarith
  have hh1lt : p1.2 < p2.1 := by linarith
  rcases h2low with h2z | h2t
  · -- the smaller-budget low never moved: it cannot exceed anything nonneg
    rw [h2z] at hgt
    have : (0 : ℚ) ≤ B1 * 12 * 30 / 2 ^ 50 := by positivity
    linarith
  · rcases h1high with h1top | h1not
    · -- the larger-budget high never moved: p2 is bounded by the smaller box
      have hbox : p2.1 ≤ B2 * 12 * 30 := le_trans h2lh h2hi
      have : B2 * 12 * 30 ≤ B1 * 12 * 30 := by linarith
      rw [h1top] at hh1lt
      linarith
    · -- the larger-budget high was tested and is not below budget, yet it
      -- sits below the smaller-budget low whose total is below budget
      have hmono := searchTotal_mono dp annualRate Y ptr ir pr hoa
        hdp hr hY hptr hir hpr (x := p1.2) (y := p2.1)
        (by linarith) (le_of_lt hh1lt)
      exact h1not (lt_of_le_of_lt hmono (lt_of_lt_of_le h2t hB21))

end Affordability

lemma roundQ_le_add_one {x t : ℚ} (ht : t ≤ 1) : roundQ (x + t) ≤ roundQ x + 1 := by
  unfold roundQ
  have h1 : round (x + t) ≤ round (x + 1) := by
    rw [round_eq, round_eq]
    exact Int.floor_le_floor (by linarith)
  have h2 : round (x + 1) = round x + 1 := by
    rw [round_eq, round_eq, show x + 1 + 1 / 2 = x + 1 / 2 + 1 by ring,
      Int.floor_add_one]
  have : round (x + t) ≤ round x + 1 := by omega
  push_cast
  exact_mod_cast this

namespace Affordability

/-- The `maxHomePrice` field is the rounded result of the binary search on
the clamped housing budget. -/
lemma calculateAffordability_maxHomePrice (i : AffordabilityInputs) :
    (calculateAffordability i).maxHomePrice =
      roundQ (findMaxHomePrice (max 0 (availableForHousing i))
        i.downPaymentAvailable i.annualInterestRate i.loanTermYears
        i.propertyTaxRate i.homeownersInsuranceRate i.pmiRate i.hoaMonthly) := rfl

/-- `availableForHousing` never increases when the fixed monthly debt
grows. -/
lemma availableForHousing_antitone (i : AffordabilityInputs) {d1 d2 : ℚ}
    (hd : d1 ≤ d2) :
    availableForHousing { i with monthlyDebtPayments := d2 } ≤
      availableForHousing { i with monthlyDebtPayments := d1 } := by
  unfold availableForHousing
  exact min_le_min le_rfl (by simp; linarith)

end Affordability

/-- C2 (amended): increasing `monthlyDebtPayments` with all other inputs
fixed cannot increase the pre-rounding solver output by more than one
binary-search grid step `budget * 12 * 30 / 2 ^ 50`, hence (for incomes up
to `10^12`) cannot increase the returned `maxHomePrice` by more than one
currency unit.  Exact monotonicity fails (see the counterexample). -/
theorem affordability_monotone_up_to_grid (i : Affordability.AffordabilityInputs)
    (d1 d2 : ℚ) (hd : d1 ≤ d2)
    (hdp : 0 ≤ i.downPaymentAvailable) (hr : 0 ≤ i.annualInterestRate)
    (hY : i.loanTermYears ≠ 0) (hptr : 0 ≤ i.propertyTaxRate)
    (hir : 0 ≤ i.homeownersInsuranceRate) (hpr : 0 ≤ i.pmiRate)
    (hinc : i.annualGrossIncome ≤ 10 ^ 12) :
    (Affordability.calculateAffordability
        { i with monthlyDebtPayments := d2 }).maxHomePrice ≤
      (Affordability.calculateAffordability
        { i with monthlyDebtPayments := d1 }).maxHomePrice + 1 := by
  set i1 : Affordability.AffordabilityInputs :=
    { i with monthlyDebtPayments := d1 } with hi1
  set i2 : Affordability.AffordabilityInputs :=
    { i with monthlyDebtPayments := d2 } with hi2
  rw [Affordability.calculateAffordability_maxHomePrice i1,
    Affordability.calculateAffordability_maxHomePrice i2]
  set B1 : ℚ := max 0 (Affordability.availableForHousing i1) with hB1def
  set B2 : ℚ := max 0 (Affordability.availableForHousing i2) with hB2def
  have hB2 : 0 ≤ B2 := le_max_left 0 _
  have hB21 : B2 ≤ B1 :=
    max_le_max le_rfl (Affordability.availableForHousing_antitone i hd)
  have hnear : Affordability.findMaxHomePrice B2 i.downPaymentAvailable
      i.annualInterestRate i.loanTermYears i.propertyTaxRate
      i.homeownersInsuranceRate i.pmiRate i.hoaMonthly ≤
      Affordability.findMaxHomePrice B1 i.downPaymentAvailable
        i.annualInterestRate i.loanTermYears i.propertyTaxRate
        i.homeownersInsuranceRate i.pmiRate i.hoaMonthly +
        B1 * 12 * 30 / 2 ^ 50 :=
    Affordability.findMaxHomePrice_near_mono i.downPaymentAvailable
      i.annualInterestRate i.loanTermYears i.propertyTaxRate
      i.homeownersInsuranceRate i.pmiRate i.hoaMonthly
      hdp hr hY hptr hir hpr hB2 hB21
  have ht1 : B1 * 12 * 30 / 2 ^ 50 ≤ 1 := by
    have hafh : Affordability.availableForHousing i1 ≤
        i.annualGrossIncome / 12 * (28 / 100) := by
      unfold Affordability.availableForHousing
      exact min_le_left _ _
    have hmax : B1 ≤ max 0 (i.annualGrossIncome / 12 * (28 / 100)) :=
      max_le_max le_rfl hafh
    have hub : max 0 (i.annualGrossIncome / 12 * (28 / 100)) ≤
        (10 : ℚ) ^ 12 / 12 * (28 / 100) := by
      apply max_le
      · positivity
      · have : i.annualGrossIncome / 12 * (28 / 100) ≤
            (10 : ℚ) ^ 12 / 12 * (28 / 100) := by
          have h12 : i.annualGrossIncome / 12 ≤ (10 : ℚ) ^ 12 / 12 := by
            linarith
          nlinarith
        exact this
    have : B1 ≤ (10 : ℚ) ^ 12 / 12 * (28 / 100) := le_trans hmax hub
    rw [div_le_one (by positivity)]
    nlinarith
  calc roundQ (Affordability.findMaxHomePrice B2 i.downPaymentAvailable
      i.annualInterestRate i.loanTermYears i.propertyTaxRate
      i.homeownersInsuranceRate i.pmiRate i.hoaMonthly) ≤
      roundQ (Affordability.findMaxHomePrice B1 i.downPaymentAvailable
        i.annualInterestRate i.loanTermYears i.propertyTaxRate
        i.homeownersInsuranceRate i.pmiRate i.hoaMonthly +
        B1 * 12 * 30 / 2 ^ 50) := roundQ_mono hnear
  _ ≤ roundQ (Affordability.findMaxHomePrice B1 i.downPaymentAvailable
        i.annualInterestRate i.loanTermYears i.propertyTaxRate
        i.homeownersInsuranceRate i.pmiRate i.hoaMonthly) + 1 :=
      roundQ_le_add_one ht1

/-- C2 witness: the near-monotonicity bound applied to the concrete
counterexample pair of inputs. -/
theorem affordability_monotone_up_to_grid_witness :
    (Affordability.calculateAffordability
        { c2Base with monthlyDebtPayments :=
            36000 - 91671781965824 / 1368251953125 }).maxHomePrice ≤
      (Affordability.calculateAffordability
        { c2Base with monthlyDebtPayments := (35933 : ℚ) }).maxHomePrice + 1 :=
  affordability_monotone_up_to_grid c2Base 35933
    (36000 - 91671781965824 / 1368251953125) (by norm_num)
    (by norm_num [c2Base]) (by norm_num [c2Base]) (by norm_num [c2Base])
    (by norm_num [c2Base]) (by norm_num [c2Base]) (by norm_num [c2Base])
    (by norm_num [c2Base])

namespace Affordability

set_option maxRecDepth 8000 in
lemma c2runA10 : bisectIter 67 (2001 / 10) 0 1 0 0 (1 / 2) 0 10 =
    (63315 / 64, 129645 / 128) := by decide

set_option maxRecDepth 8000 in
lemma c2runA20 : bisectIter 67 (2001 / 10) 0 1 0 0 (1 / 2) 0 20 =
    (131137425 / 131072, 16392555 / 16384) := by
  rw [show (20 : ℕ) = 10 + 10 from rfl, bisectIter_add, c2runA10]
  decide

set_option maxRecDepth 8000 in
lemma c2runA30 : bisectIter 67 (2001 / 10) 0 1 0 0 (1 / 2) 0 30 =
    (134284834755 / 134217728, 67142418885 / 67108864) := by
  rw [show (30 : ℕ) = 20 + 10 from rfl, bisectIter_add, c2runA20]
  decide

set_option maxRecDepth 8000 in
lemma c2runA40 : bisectIter 67 (2001 / 10) 0 1 0 0 (1 / 2) 0 40 =
    (34376918236965 / 34359738368, 137507672950875 / 137438953472) := by
  rw [show (40 : ℕ) = 30 + 10 from rfl, bisectIter_add, c2runA30]
  decide

set_option maxRecDepth 8000 in
lemma c2runA50 : bisectIter 67 (2001 / 10) 0 1 0 0 (1 / 2) 0 50 =
    (140807857099504095 / 140737488355328, 70403928549753555 / 70368744177664) := by
  rw [show (50 : ℕ) = 40 + 10 from rfl, bisectIter_add, c2runA40]
  decide

set_option maxRecDepth 8000 in
lemma c2runB10 : bisectIter (91671781965824 / 1368251953125) (2001 / 10) 0 1 0 0
    (1 / 2) 0 10 = (90239410372608 / 91216796875, 92387967762432 / 91216796875) := by
  decide

set_option maxRecDepth 8000 in
lemma c2runB20 : bisectIter (91671781965824 / 1368251953125) (2001 / 10) 0 1 0 0
    (1 / 2) 0 20 = (18252246810624 / 18243359375, 91263332253696 / 91216796875) := by
  rw [show (20 : ℕ) = 10 + 10 from rfl, bisectIter_add, c2runB10]
  decide

set_option maxRecDepth 8000 in
lemma c2runB30 : bisectIter (91671781965824 / 1368251953125) (2001 / 10) 0 1 0 0
    (1 / 2) 0 30 = (91262404045824 / 91216796875, 91262406094848 / 91216796875) := by
  rw [show (30 : ℕ) = 20 + 10 from rfl, bisectIter_add, c2runB20]
  decide

set_option maxRecDepth 8000 in
lemma c2runB40 : bisectIter (91671781965824 / 1368251953125) (2001 / 10) 0 1 0 0
    (1 / 2) 0 40 = (91262405272437 / 91216796875, 91262405274438 / 91216796875) := by
  rw [show (40 : ℕ) = 30 + 10 from rfl, bisectIter_add, c2runB30]
  decide

set_option maxRecDepth 8000 in
lemma c2runB50 : bisectIter (91671781965824 / 1368251953125) (2001 / 10) 0 1 0 0
    (1 / 2) 0 50 = (2001 / 2, 93452703000002001 / 93406000000000) := by
  rw [show (50 : ℕ) = 40 + 10 from rfl, bisectIter_add, c2runB40]
  decide

end Affordability

/-- C2 counterexample: two affordability inputs identical except for
`monthlyDebtPayments` where the larger debt yields a strictly larger
`maxHomePrice` (`$1001` versus `$1000`): the fixed-count binary search
quantizes the answer onto a budget-dependent grid, which is not exactly
monotone. -/
theorem affordability_monotonicity_cex :
    { c2Higher with monthlyDebtPayments := c2Base.monthlyDebtPayments } = c2Base ∧
    c2Base.monthlyDebtPayments < c2Higher.monthlyDebtPayments ∧
    (Affordability.calculateAffordability c2Base).maxHomePrice <
      (Affordability.calculateAffordability c2Higher).maxHomePrice := by
  refine ⟨by decide, by decide, ?_⟩
  rw [Affordability.calculateAffordability_maxHomePrice c2Base,
    Affordability.calculateAffordability_maxHomePrice c2Higher]
  have hb1 : max 0 (Affordability.availableForHousing c2Base) = 67 := by decide
  have hb2 : max 0 (Affordability.availableForHousing c2Higher) =
      91671781965824 / 1368251953125 := by decide
  have hfields1 : c2Base.downPaymentAvailable = 2001 / 10 := by decide
  have hfields2 : c2Higher.downPaymentAvailable = 2001 / 10 := by decide
  rw [hb1, hb2]
  show roundQ ((Affordability.bisectIter 67 c2Base.downPaymentAvailable
      c2Base.annualInterestRate c2Base.loanTermYears c2Base.propertyTaxRate
      c2Base.homeownersInsuranceRate c2Base.pmiRate c2Base.hoaMonthly 50).1) <
    roundQ ((Affordability.bisectIter (91671781965824 / 1368251953125)
      c2Higher.downPaymentAvailable c2Higher.annualInterestRate
      c2Higher.loanTermYears c2Higher.propertyTaxRate
      c2Higher.homeownersInsuranceRate c2Higher.pmiRate c2Higher.hoaMonthly 50).1)
  rw [show c2Base.downPaymentAvailable = 2001 / 10 from by decide,
    show c2Base.annualInterestRate = 0 from by decide,
    show c2Base.loanTermYears = 1 from by decide,
    show c2Base.propertyTaxRate = 0 from by decide,
    show c2Base.homeownersInsuranceRate = 0 from by decide,
    show c2Base.pmiRate = 1 / 2 from by decide,
    show c2Base.hoaMonthly = 0 from by decide,
    show c2Higher.downPaymentAvailable = 2001 / 10 from by decide,
    show c2Higher.annualInterestRate = 0 from by decide,
    show c2Higher.loanTermYears = 1 from by decide,
    show c2Higher.propertyTaxRate = 0 from by decide,
    show c2Higher.homeownersInsuranceRate = 0 from by decide,
    show c2Higher.pmiRate = 1 / 2 from by decide,
    show c2Higher.hoaMonthly = 0 from by decide,
    Affordability.c2runA50, Affordability.c2runB50]
  show roundQ (140807857099504095 / 140737488355328) < roundQ (2001 / 2)
  decide

namespace Affordability

/-- `searchTotal` for the `c4Input` parameters: zero rate, no down payment,
no taxes or PMI, `$1000` HOA. -/
lemma c4_searchTotal (x : ℚ) (hx : 0 ≤ x) :
    searchTotal 0 0 1 0 0 0 1000 x = x / 12 + 1000 := by
  unfold searchTotal calculateMonthlyBreakdown
  norm_num [max_eq_right hx]

/-- For the `c4Input` parameters every candidate price is over budget, so
the binary search bracket stays pinned at `(0, 100800 / 2 ^ k)`. -/
lemma c4_iter : ∀ k : ℕ, bisectIter 280 0 0 1 0 0 0 1000 k =
    (0, 100800 / 2 ^ k) := by
  intro k
  induction k with
  | zero =>
    show ((0 : ℚ), (280 : ℚ) * 12 * 30) = _
    norm_num
  | succ k ih =>
    show bisectStep 280 0 0 1 0 0 0 1000 (bisectIter 280 0 0 1 0 0 0 1000 k) = _
    rw [ih]
    unfold bisectStep
    have hmid : ((0 : ℚ) + 100800 / 2 ^ k) / 2 = 100800 / 2 ^ (k + 1) := by
      rw [pow_succ]
      field_simp
    have hmidpos : (0 : ℚ) ≤ ((0 : ℚ) + 100800 / 2 ^ k) / 2 := by positivity
    rw [if_neg]
    · simp only [hmid]
    · rw [c4_searchTotal _ hmidpos]
      intro hcon
      have : (0 : ℚ) ≤ (0 + 100800 / 2 ^ k) / 2 / 12 := by positivity
      linarith

/-- The front-end ratio field, written out through the solver result. -/
lemma calculateAffordability_frontEndRatio (i : AffordabilityInputs) :
    (calculateAffordability i).frontEndRatio =
      round1 ((calculateMonthlyBreakdown
          (findMaxHomePrice (max 0 (availableForHousing i))
            i.downPaymentAvailable i.annualInterestRate i.loanTermYears
            i.propertyTaxRate i.homeownersInsuranceRate i.pmiRate i.hoaMonthly -
            i.downPaymentAvailable)
          (findMaxHomePrice (max 0 (availableForHousing i))
            i.downPaymentAvailable i.annualInterestRate i.loanTermYears
            i.propertyTaxRate i.homeownersInsuranceRate i.pmiRate i.hoaMonthly)
          i.annualInterestRate i.loanTermYears i.propertyTaxRate
          i.homeownersInsuranceRate
          (i.downPaymentAvailable /
            findMaxHomePrice (max 0 (availableForHousing i))
              i.downPaymentAvailable i.annualInterestRate i.loanTermYears
              i.propertyTaxRate i.homeownersInsuranceRate i.pmiRate
              i.hoaMonthly * 100)
          i.pmiRate i.hoaMonthly).total / (i.annualGrossIncome / 12) * 100) := rfl

/-- The back-end ratio field, written out through the solver result. -/
lemma calculateAffordability_backEndRatio (i : AffordabilityInputs) :
    (calculateAffordability i).backEndRatio =
      round1 (((calculateMonthlyBreakdown
          (findMaxHomePrice (max 0 (availableForHousing i))
            i.downPaymentAvailable i.annualInterestRate i.loanTermYears
            i.propertyTaxRate i.homeownersInsuranceRate i.pmiRate i.hoaMonthly -
            i.downPaymentAvailable)
          (findMaxHomePrice (max 0 (availableForHousing i))
            i.downPaymentAvailable i.annualInterestRate i.loanTermYears
            i.propertyTaxRate i.homeownersInsuranceRate i.pmiRate i.hoaMonthly)
          i.annualInterestRate i.loanTermYears i.propertyTaxRate
          i.homeownersInsuranceRate
          (i.downPaymentAvailable /
            findMaxHomePrice (max 0 (availableForHousing i))
              i.downPaymentAvailable i.annualInterestRate i.loanTermYears
              i.propertyTaxRate i.homeownersInsuranceRate i.pmiRate
              i.hoaMonthly * 100)
          i.pmiRate i.hoaMonthly).total + i.monthlyDebtPayments) /
        (i.annualGrossIncome / 12) * 100) := rfl

end Affordability

/-- C4 counterexample: for `c4Input` the available housing budget is
positive, yet the returned `frontEndRatio` is `100` and the `backEndRatio`
is `100`, far above the 28/36 bounds — the claimed exception condition
(`availableForHousing` non-positive) does not cover this input. -/
theorem affordability_ratio_bounds_cex :
    0 < Affordability.availableForHousing c4Input ∧
    28 < (Affordability.calculateAffordability c4Input).frontEndRatio ∧
    36 < (Affordability.calculateAffordability c4Input).backEndRatio := by
  have hfind : Affordability.findMaxHomePrice
      (max 0 (Affordability.availableForHousing c4Input))
      c4Input.downPaymentAvailable c4Input.annualInterestRate
      c4Input.loanTermYears c4Input.propertyTaxRate
      c4Input.homeownersInsuranceRate c4Input.pmiRate c4Input.hoaMonthly = 0 := by
    have hb : max 0 (Affordability.availableForHousing c4Input) = 280 := by decide
    rw [hb]
    show (Affordability.bisectIter 280 c4Input.downPaymentAvailable
      c4Input.annualInterestRate c4Input.loanTermYears c4Input.propertyTaxRate
      c4Input.homeownersInsuranceRate c4Input.pmiRate c4Input.hoaMonthly 50).1 = 0
    rw [show c4Input.downPaymentAvailable = 0 from by decide,
      show c4Input.annualInterestRate = 0 from by decide,
      show c4Input.loanTermYears = 1 from by decide,
      show c4Input.propertyTaxRate = 0 from by decide,
      show c4Input.homeownersInsuranceRate = 0 from by decide,
      show c4Input.pmiRate = 0 from by decide,
      show c4Input.hoaMonthly = 1000 from by decide,
      Affordability.c4_iter 50]
  refine ⟨by decide, ?_, ?_⟩
  · rw [Affordability.calculateAffordability_frontEndRatio c4Input, hfind]
    decide
  · rw [Affordability.calculateAffordability_backEndRatio c4Input, hfind]
    decide

namespace Affordability

/-- Decomposition of the breakdown total into its five components. -/
lemma mb_total (la hp annualRate : ℚ) (Y : ℕ) (ptr ir dpp pr hoa : ℚ) :
    (calculateMonthlyBreakdown la hp annualRate Y ptr ir dpp pr hoa).total =
      (calculateMonthlyBreakdown la hp annualRate Y ptr ir dpp pr hoa).principalAndInterest +
        hp * ptr / 100 / 12 + hp * ir / 100 / 12 +
        (if dpp < 20 then la * pr / 100 / 12 else 0) + hoa := rfl

/-- At candidate price `0` the search total is exactly the HOA fee. -/
lemma searchTotal_zero (dp annualRate : ℚ) (Y : ℕ) (ptr ir pr hoa : ℚ)
    (hdp : 0 ≤ dp) :
    searchTotal dp annualRate Y ptr ir pr hoa 0 = hoa := by
  unfold searchTotal
  rw [mb_total]
  have hla : max 0 ((0 : ℚ) - dp) = 0 := max_eq_left (by linarith)
  rw [hla, mb_pi_zero]
  have hdpp : (dp / 0 * 100 : ℚ) = 0 := by simp
  rw [hdpp]
  norm_num

/-- With a zero budget the bracket collapses to `(0, 0)` for good. -/
lemma bisectIter_zero_budget (dp annualRate : ℚ) (Y : ℕ) (ptr ir pr hoa : ℚ)
    (hdp : 0 ≤ dp) (hhoa : 0 ≤ hoa) :
    ∀ k : ℕ, bisectIter 0 dp annualRate Y ptr ir pr hoa k = (0, 0) := by
  intro k
  induction k with
  | zero =>
    show ((0 : ℚ), (0 : ℚ) * 12 * 30) = _
    norm_num
  | succ k ih =>
    show bisectStep 0 dp annualRate Y ptr ir pr hoa
      (bisectIter 0 dp annualRate Y ptr ir pr hoa k) = _
    rw [ih]
    unfold bisectStep
    have hmid : (((0 : ℚ), (0 : ℚ)).1 + ((0 : ℚ), (0 : ℚ)).2) / 2 = 0 := by norm_num
    rw [if_neg]
    · simp [hmid]
    · rw [hmid, searchTotal_zero dp annualRate Y ptr ir pr hoa hdp]
      linarith

/-- The final breakdown (unclamped loan amount) never exceeds the clamped
search total at the same price. -/
lemma final_total_le_search (dp annualRate : ℚ) (Y : ℕ) (ptr ir pr hoa : ℚ)
    (hr : 0 ≤ annualRate) (hY : Y ≠ 0) (hpr : 0 ≤ pr) (x : ℚ) :
    (calculateMonthlyBreakdown (x - dp) x annualRate Y ptr ir (dp / x * 100)
      pr hoa).total ≤ searchTotal dp annualRate Y ptr ir pr hoa x := by
  unfold searchTotal
  rw [mb_total, mb_total]
  have hpi := mb_pi_linear (x - dp) x annualRate Y ptr ir (dp / x * 100) pr hoa
    (max 0 (x - dp)) x (dp / x * 100)
    (le_max_right 0 (x - dp)) hr hY
  have hpmi : (if dp / x * 100 < 20 then (x - dp) * pr / 100 / 12 else 0) ≤
      (if dp / x * 100 < 20 then max 0 (x - dp) * pr / 100 / 12 else 0) := by
    split
    · have := mul_le_mul_of_nonneg_right (le_max_right 0 (x - dp)) hpr
      linarith
    · exact le_rfl
  linarith

end Affordability

/-- C4 (amended): when the solver finds a positive price, the returned
`frontEndRatio` and `backEndRatio` respect the 28/36 bounds; when
`availableForHousing` is non-positive the returned `maxHomePrice` is `0`.
A positive `availableForHousing` alone does not guarantee the bounds (see
the counterexample), so the exception condition must be "the solver found
no positive price" rather than "`availableForHousing` non-positive". -/
theorem affordability_ratio_bounds (i : Affordability.AffordabilityInputs)
    (hinc : 0 < i.annualGrossIncome) (hdp : 0 ≤ i.downPaymentAvailable)
    (hr : 0 ≤ i.annualInterestRate) (hY : i.loanTermYears ≠ 0)
    (hptr : 0 ≤ i.propertyTaxRate) (hir : 0 ≤ i.homeownersInsuranceRate)
    (hpr : 0 ≤ i.pmiRate) (hhoa : 0 ≤ i.hoaMonthly) :
    (Affordability.availableForHousing i ≤ 0 →
      (Affordability.calculateAffordability i).maxHomePrice = 0) ∧
    (0 < Affordability.findMaxHomePrice
        (max 0 (Affordability.availableForHousing i)) i.downPaymentAvailable
        i.annualInterestRate i.loanTermYears i.propertyTaxRate
        i.homeownersInsuranceRate i.pmiRate i.hoaMonthly →
      (Affordability.calculateAffordability i).frontEndRatio ≤ 28 ∧
      (Affordability.calculateAffordability i).backEndRatio ≤ 36) := by
  constructor
  · intro havail
    rw [Affordability.calculateAffordability_maxHomePrice i]
    have hmax : max 0 (Affordability.availableForHousing i) = 0 :=
      max_eq_left havail
    rw [hmax]
    show roundQ ((Affordability.bisectIter 0 i.downPaymentAvailable
      i.annualInterestRate i.loanTermYears i.propertyTaxRate
      i.homeownersInsuranceRate i.pmiRate i.hoaMonthly 50).1) = 0
    rw [Affordability.bisectIter_zero_budget i.downPaymentAvailable
      i.annualInterestRate i.loanTermYears i.propertyTaxRate
      i.homeownersInsuranceRate i.pmiRate i.hoaMonthly hdp hhoa 50]
    simp [roundQ]
  · intro hpos
    set B : ℚ := max 0 (Affordability.availableForHousing i) with hBdef
    set raw : ℚ := Affordability.findMaxHomePrice B i.downPaymentAvailable
      i.annualInterestRate i.loanTermYears i.propertyTaxRate
      i.homeownersInsuranceRate i.pmiRate i.hoaMonthly with hrawdef
    have hB0 : 0 ≤ B := le_max_left 0 _
    obtain ⟨hl0, hlh, hhi, hgap, hlow, hhigh⟩ :=
      Affordability.bisectIter_inv B i.downPaymentAvailable
        i.annualInterestRate i.loanTermYears i.propertyTaxRate
        i.homeownersInsuranceRate i.pmiRate i.hoaMonthly hB0 50
    have hraweq : raw = (Affordability.bisectIter B i.downPaymentAvailable
        i.annualInterestRate i.loanTermYears i.propertyTaxRate
        i.homeownersInsuranceRate i.pmiRate i.hoaMonthly 50).1 := rfl
    rw [← hraweq] at hl0 hlh hlow
    have hsearch : Affordability.searchTotal i.downPaymentAvailable
        i.annualInterestRate i.loanTermYears i.propertyTaxRate
        i.homeownersInsuranceRate i.pmiRate i.hoaMonthly raw < B := by
      rcases hlow with h0 | h
      · rw [h0] at hpos
        exact absurd hpos (lt_irrefl 0)
      · exact h
    have hrawB : raw ≤ B * 12 * 30 := le_trans hlh hhi
    have hBpos : 0 < B := by
      by_contra hc
      push_neg at hc
      have hB : B = 0 := le_antisymm hc hB0
      rw [hB] at hrawB
      have : raw ≤ 0 := by linarith
      linarith
    have havailpos : 0 < Affordability.availableForHousing i := by
      by_contra hc
      push_neg at hc
      rw [hBdef] at hBpos
      rw [max_eq_left hc] at hBpos
      exact absurd hBpos (lt_irrefl 0)
    have hBavail : B = Affordability.availableForHousing i :=
      max_eq_right havailpos.le
    have hmi : 0 < i.annualGrossIncome / 12 := by positivity
    have hfront : Affordability.availableForHousing i ≤
        i.annualGrossIncome / 12 * (28 / 100) := by
      unfold Affordability.availableForHousing
      exact min_le_left _ _
    have hback : Affordability.availableForHousing i ≤
        i.annualGrossIncome / 12 * (36 / 100) - i.monthlyDebtPayments := by
      unfold Affordability.availableForHousing
      exact min_le_right _ _
    have hfinal := Affordability.final_total_le_search i.downPaymentAvailable
      i.annualInterestRate i.loanTermYears i.propertyTaxRate
      i.homeownersInsuranceRate i.pmiRate i.hoaMonthly hr hY hpr raw
    have htotB : (Affordability.calculateMonthlyBreakdown
        (raw - i.downPaymentAvailable) raw i.annualInterestRate
        i.loanTermYears i.propertyTaxRate i.homeownersInsuranceRate
        (i.downPaymentAvailable / raw * 100) i.pmiRate i.hoaMonthly).total < B :=
      lt_of_le_of_lt hfinal hsearch
    constructor
    · rw [Affordability.calculateAffordability_frontEndRatio i]
      apply round1_le_of_lt (m := 280) (by norm_num)
      rw [← hBdef, ← hrawdef]
      have h1 : (Affordability.calculateMonthlyBreakdown
          (raw - i.downPaymentAvailable) raw i.annualInterestRate
          i.loanTermYears i.propertyTaxRate i.homeownersInsuranceRate
          (i.downPaymentAvailable / raw * 100) i.pmiRate i.hoaMonthly).total <
          i.annualGrossIncome / 12 * (28 / 100) := by
        rw [hBavail] at htotB
        linarith
      rw [div_mul_eq_mul_div, div_lt_iff hmi]
      nlinarith
    · rw [Affordability.calculateAffordability_backEndRatio i]
      apply round1_le_of_lt (m := 360) (by norm_num)
      rw [← hBdef, ← hrawdef]
      have h1 : (Affordability.calculateMonthlyBreakdown
          (raw - i.downPaymentAvailable) raw i.annualInterestRate
          i.loanTermYears i.propertyTaxRate i.homeownersInsuranceRate
          (i.downPaymentAvailable / raw * 100) i.pmiRate i.hoaMonthly).total +
          i.monthlyDebtPayments < i.annualGrossIncome / 12 * (36 / 100) := by
        rw [hBavail] at htotB
        linarith
      rw [div_mul_eq_mul_div, div_lt_iff hmi]
      nlinarith

/-- C4 witness: the amended theorem applied to a concrete input whose debt
swamps the budget, concluding that the returned price is zero. -/
theorem affordability_ratio_bounds_witness :
    (Affordability.calculateAffordability
        { c4Input with monthlyDebtPayments := 10000 }).maxHomePrice = 0 :=
  (affordability_ratio_bounds { c4Input with monthlyDebtPayments := 10000 }
    (by norm_num [c4Input]) (by norm_num [c4Input]) (by norm_num [c4Input])
    (by norm_num [c4Input]) (by norm_num [c4Input]) (by norm_num [c4Input])
    (by norm_num [c4Input]) (by norm_num [c4Input])).1 (by decide)

/-! ## C5 / C6: PMI threshold and the zero-rate payment -/

namespace MonthlyPayment

/-- The `monthlyPMI` field written out. -/
lemma cm_monthlyPMI (i : MonthlyPaymentInputs) :
    (calculateMonthlyPayment i).monthlyPMI =
      round2 (if i.downPayment / i.homePrice * 100 < 20 ∧ 0 < i.pmiRate then
        (i.homePrice - i.downPayment) * (i.pmiRate / 100) / 12 else 0) := rfl

/-- The `monthlyPrincipalAndInterest` field written out. -/
lemma cm_pi (i : MonthlyPaymentInputs) :
    (calculateMonthlyPayment i).monthlyPrincipalAndInterest =
      round2 (if i.annualInterestRate / 100 / 12 = 0 then
        (i.homePrice - i.downPayment) / ((i.loanTermYears * 12 : ℕ) : ℚ)
      else
        (i.homePrice - i.downPayment) * (i.annualInterestRate / 100 / 12) *
          (1 + i.annualInterestRate / 100 / 12) ^ (i.loanTermYears * 12) /
          ((1 + i.annualInterestRate / 100 / 12) ^ (i.loanTermYears * 12) - 1)) := rfl

/-- The `totalInterestPaid` field written out. -/
lemma cm_totalInterestPaid (i : MonthlyPaymentInputs) :
    (calculateMonthlyPayment i).totalInterestPaid =
      roundQ ((if i.annualInterestRate / 100 / 12 = 0 then
        (i.homePrice - i.downPayment) / ((i.loanTermYears * 12 : ℕ) : ℚ)
      else
        (i.homePrice - i.downPayment) * (i.annualInterestRate / 100 / 12) *
          (1 + i.annualInterestRate / 100 / 12) ^ (i.loanTermYears * 12) /
          ((1 + i.annualInterestRate / 100 / 12) ^ (i.loanTermYears * 12) - 1)) *
        ((i.loanTermYears * 12 : ℕ) : ℚ) - (i.homePrice - i.downPayment)) := rfl

end MonthlyPayment

/-- C5 counterexample: a down payment strictly below 20% with a positive
PMI rate whose returned `monthlyPMI` is `0`: the raw PMI of `$0.00375` a
month is rounded to zero cents. -/
theorem pmi_threshold_cex :
    c5Input.downPayment / c5Input.homePrice * 100 < 20 ∧
    0 < c5Input.pmiRate ∧
    (MonthlyPayment.calculateMonthlyPayment c5Input).monthlyPMI = 0 := by
  refine ⟨by decide, by decide, ?_⟩
  rw [MonthlyPayment.cm_monthlyPMI c5Input]
  decide

/-- C5 (amended): at exactly 20% down the returned `monthlyPMI` is `0`; for
a down payment strictly below 20% with a positive PMI rate (and a positive
home price) the pre-rounding PMI `(homePrice - downPayment) * pmiRate/100 / 12`
is strictly positive and the returned `monthlyPMI` is its cent-rounding —
which is `0` whenever the raw PMI is below half a cent. -/
theorem pmi_threshold (i : MonthlyPayment.MonthlyPaymentInputs) :
    (i.downPayment / i.homePrice * 100 = 20 →
      (MonthlyPayment.calculateMonthlyPayment i).monthlyPMI = 0) ∧
    (i.downPayment / i.homePrice * 100 < 20 → 0 < i.pmiRate → 0 < i.homePrice →
      0 < (i.homePrice - i.downPayment) * (i.pmiRate / 100) / 12 ∧
      (MonthlyPayment.calculateMonthlyPayment i).monthlyPMI =
        round2 ((i.homePrice - i.downPayment) * (i.pmiRate / 100) / 12)) := by
  constructor
  · intro h20
    rw [MonthlyPayment.cm_monthlyPMI i, if_neg, round2_zero]
    intro hcon
    rw [h20] at hcon
    exact absurd hcon.1 (lt_irrefl 20)
  · intro hlt hpr hhp
    have hdp : i.downPayment < i.homePrice / 5 := by
      rw [div_mul_eq_mul_div, div_lt_iff hhp] at hlt
      linarith
    have hla : 0 < i.homePrice - i.downPayment := by linarith
    constructor
    · positivity
    · rw [MonthlyPayment.cm_monthlyPMI i, if_pos ⟨hlt, hpr⟩]

/-- C5 witness: exactly-20% down yields zero PMI, and below 20% the
pre-rounding PMI is positive, at concrete inputs. -/
theorem pmi_threshold_witness :
    (MonthlyPayment.calculateMonthlyPayment c5ExactInput).monthlyPMI = 0 ∧
    0 < (c5Input.homePrice - c5Input.downPayment) * (c5Input.pmiRate / 100) / 12 :=
  ⟨(pmi_threshold c5ExactInput).1 (by norm_num [c5ExactInput]),
    ((pmi_threshold c5Input).2 (by norm_num [c5Input]) (by norm_num [c5Input])
      (by norm_num [c5Input])).1⟩

/-- C6 counterexample: at a zero rate the returned
`monthlyPrincipalAndInterest` is the cent-rounded `2.78`, not the exact
`1000/360 = 2.777...` quotient, so the "equal ... exactly" part fails for
the returned field. -/
theorem zero_rate_division_cex :
    c6Input.annualInterestRate = 0 ∧
    (MonthlyPayment.calculateMonthlyPayment c6Input).monthlyPrincipalAndInterest ≠
      (c6Input.homePrice - c6Input.downPayment) /
        ((c6Input.loanTermYears * 12 : ℕ) : ℚ) := by
  refine ⟨by decide, ?_⟩
  rw [MonthlyPayment.cm_pi c6Input]
  decide

/-- C6 (amended): at a zero rate the dedicated simple-division branch is
taken: the returned `monthlyPrincipalAndInterest` is the cent-rounding of
`loanAmount / (loanTermYears * 12)` (exact equality only when that quotient
is a whole number of cents), and `totalInterestPaid` is exactly `0`. -/
theorem zero_rate_division (i : MonthlyPayment.MonthlyPaymentInputs)
    (h0 : i.annualInterestRate = 0) (hY : i.loanTermYears ≠ 0) :
    (MonthlyPayment.calculateMonthlyPayment i).monthlyPrincipalAndInterest =
      round2 ((i.homePrice - i.downPayment) /
        ((i.loanTermYears * 12 : ℕ) : ℚ)) ∧
    (MonthlyPayment.calculateMonthlyPayment i).totalInterestPaid = 0 := by
  have hmr : i.annualInterestRate / 100 / 12 = 0 := by rw [h0]; norm_num
  constructor
  · rw [MonthlyPayment.cm_pi i, if_pos hmr]
  · rw [MonthlyPayment.cm_totalInterestPaid i, if_pos hmr]
    have hn : ((i.loanTermYears * 12 : ℕ) : ℚ) ≠ 0 := by
      have : i.loanTermYears * 12 ≠ 0 := by omega
      exact_mod_cast this
    rw [div_mul_cancel₀ _ hn, sub_self]
    simp [roundQ]

/-- C6 witness: the zero-rate branch at the concrete input `c6Input`. -/
theorem zero_rate_division_witness :
    (MonthlyPayment.calculateMonthlyPayment c6Input).monthlyPrincipalAndInterest =
      round2 ((c6Input.homePrice - c6Input.downPayment) /
        ((c6Input.loanTermYears * 12 : ℕ) : ℚ)) ∧
    (MonthlyPayment.calculateMonthlyPayment c6Input).totalInterestPaid = 0 :=
  zero_rate_division c6Input (by norm_num [c6Input]) (by norm_num [c6Input])

/-! ## C3 / C10: refinance break-even sentinels -/

namespace Refinance

/-- The internal `monthlySavings` of `calculateRefinance` is
`rawMonthlySavings`. -/
lemma cr_breakEvenMonths (i : RefinanceInputs) :
    (calculateRefinance i).breakEvenMonths =
      (if 0 < rawMonthlySavings i then
        ((⌈i.closingCosts / rawMonthlySavings i⌉ : ℤ) : ℚ) else -1) := rfl

/-- The `breakEvenYears` field written out. -/
lemma cr_breakEvenYears (i : RefinanceInputs) :
    (calculateRefinance i).breakEvenYears =
      round1 ((if 0 < rawMonthlySavings i then
        ((⌈i.closingCosts / rawMonthlySavings i⌉ : ℤ) : ℚ) else -1) / 12) := rfl

/-- The `isWorthRefinancing` field written out. -/
lemma cr_isWorthRefinancing (i : RefinanceInputs) :
    (calculateRefinance i).isWorthRefinancing =
      (decide (0 < rawMonthlySavings i) &&
        decide (0 < (if 0 < rawMonthlySavings i then
          ((⌈i.closingCosts / rawMonthlySavings i⌉ : ℤ) : ℚ) else -1)) &&
        decide ((if 0 < rawMonthlySavings i then
          ((⌈i.closingCosts / rawMonthlySavings i⌉ : ℤ) : ℚ) else -1) < 120)) := rfl

end Refinance

/-- C3 counterexample: an input whose returned (cent-rounded)
`newMonthlyPayment` equals the returned `currentMonthlyPayment`, yet
`breakEvenMonths` is a large positive number instead of `-1`, because the
pre-rounding monthly saving is a positive fraction of a cent. -/
theorem refinance_sentinel_cex :
    (Refinance.calculateRefinance c3Input).currentMonthlyPayment ≤
      (Refinance.calculateRefinance c3Input).newMonthlyPayment ∧
    (Refinance.calculateRefinance c3Input).breakEvenMonths ≠ -1 ∧
    0 < (Refinance.calculateRefinance c3Input).breakEvenMonths := by
  have hcur : (Refinance.calculateRefinance c3Input).currentMonthlyPayment =
      round2 (Refinance.calculateMonthlyPayment c3Input.currentLoanAmount
        c3Input.currentInterestRate
        (⌈c3Input.yearsRemainingOnCurrentLoan⌉ : ℤ).toNat) := rfl
  have hnew : (Refinance.calculateRefinance c3Input).newMonthlyPayment =
      round2 (Refinance.calculateMonthlyPayment
        (c3Input.currentLoanAmount + c3Input.cashOutAmount)
        c3Input.newInterestRate c3Input.newLoanTermYears) := rfl
  refine ⟨?_, ?_, ?_⟩
  · rw [hcur, hnew]
    decide
  · rw [Refinance.cr_breakEvenMonths c3Input]
    decide
  · rw [Refinance.cr_breakEvenMonths c3Input]
    decide

/-- C3 (amended): with the comparison taken on the pre-rounding payments,
the sentinel behaves as specified: `breakEvenMonths = -1` and
`isWorthRefinancing = false` exactly when the raw monthly saving is
non-positive (equivalently, the raw new payment is at least the raw current
payment), and otherwise `breakEvenMonths = ceil(closingCosts / savings)`.
The implication fails for the returned cent-rounded payment fields (see the
counterexample). -/
theorem refinance_sentinel (i : Refinance.RefinanceInputs) :
    (Refinance.rawMonthlySavings i ≤ 0 →
      (Refinance.calculateRefinance i).breakEvenMonths = -1 ∧
      (Refinance.calculateRefinance i).isWorthRefinancing = false) ∧
    (0 < Refinance.rawMonthlySavings i →
      (Refinance.calculateRefinance i).breakEvenMonths =
        ((⌈i.closingCosts / Refinance.rawMonthlySavings i⌉ : ℤ) : ℚ)) := by
  constructor
  · intro h
    have hnot : ¬ 0 < Refinance.rawMonthlySavings i := not_lt.mpr h
    constructor
    · rw [Refinance.cr_breakEvenMonths i, if_neg hnot]
    · rw [Refinance.cr_isWorthRefinancing i]
      have : decide (0 < Refinance.rawMonthlySavings i) = false :=
        decide_eq_false hnot
      rw [this]
      simp
  · intro h
    rw [Refinance.cr_breakEvenMonths i, if_pos h]

/-- C3 witness: a refinance with zero saving gets the `-1` sentinel and is
not worth refinancing. -/
theorem refinance_sentinel_witness :
    (Refinance.calculateRefinance c3ZeroInput).breakEvenMonths = -1 ∧
    (Refinance.calculateRefinance c3ZeroInput).isWorthRefinancing = false :=
  (refinance_sentinel c3ZeroInput).1 (by decide)

/-- C10: whenever the raw monthly saving is non-positive,
`breakEvenYears` is `-0.1` — the `-1` months sentinel divided by 12 and
rounded to one decimal — never the documented `-1` sentinel itself. -/
theorem refinance_breakEvenYears_sentinel (i : Refinance.RefinanceInputs)
    (h : Refinance.rawMonthlySavings i ≤ 0) :
    (Refinance.calculateRefinance i).breakEvenYears = -(1 / 10) ∧
    (Refinance.calculateRefinance i).breakEvenYears ≠ -1 := by
  have hnot : ¬ 0 < Refinance.rawMonthlySavings i := not_lt.mpr h
  have hy : (Refinance.calculateRefinance i).breakEvenYears =
      round1 ((-1 : ℚ) / 12) := by
    rw [Refinance.cr_breakEvenYears i, if_neg hnot]
  rw [hy]
  constructor
  · decide
  · decide

/-- C10 witness: the `-0.1` sentinel at a concrete zero-saving input. -/
theorem refinance_breakEvenYears_sentinel_witness :
    (Refinance.calculateRefinance c10Input).breakEvenYears = -(1 / 10) :=
  (refinance_breakEvenYears_sentinel c10Input (by decide)).1

/-! ## C8: the FIRE unreachable sentinel -/

lemma round1_natCast (k : ℕ) : round1 ((k : ℕ) : ℚ) = k := by
  unfold round1
  have : ((k : ℚ) * 10) = ((k * 10 : ℕ) : ℚ) := by push_cast; ring
  rw [this, round_natCast]
  push_cast
  field_simp

namespace Fire

/-- The internal sentinel option written out. -/
lemma fireYearsInternal_eq (i : FIREInputs) :
    fireYearsInternal i =
      (if i.annualIncome - i.annualExpenses ≤ 0 ∧
          i.currentSavings < i.annualExpenses / (i.safeWithdrawalRate / 100) then
        none
      else if i.annualExpenses / (i.safeWithdrawalRate / 100) ≤ i.currentSavings then
        some 0
      else
        some (((calculateYearsToTarget i.currentSavings
          (i.annualIncome - i.annualExpenses) (i.expectedReturn / 100)
          (i.annualExpenses / (i.safeWithdrawalRate / 100)) : ℕ) : ℚ))) := rfl

/-- The returned `yearsToRetirement` written out through the sentinel. -/
lemma cf_yearsToRetirement (i : FIREInputs) :
    (calculateFIRE i).yearsToRetirement =
      (match fireYearsInternal i with
        | none => -1
        | some y => round1 y) := rfl

end Fire

/-- C8: `calculateFIRE` returns the `-1` sentinel (internally `Infinity`,
modelled as `none`) exactly when annual savings are non-positive and the
current savings fall short of the FIRE number; in the reachable sub-target
case the returned years value is the count of forward-simulation iterations
`savings := savings * (1 + r) + annualSavings` until the FIRE number is
reached, capped at 100.  (`safeWithdrawalRate > 0` keeps the `ℚ` model of
`fireNumber` aligned with JavaScript.) -/
theorem fire_unreachable_sentinel (i : Fire.FIREInputs)
    (hswr : 0 < i.safeWithdrawalRate) :
    ((Fire.calculateFIRE i).yearsToRetirement = -1 ↔
      (i.annualIncome - i.annualExpenses ≤ 0 ∧
        i.currentSavings < i.annualExpenses / (i.safeWithdrawalRate / 100))) ∧
    (Fire.fireYearsInternal i = none ↔
      (i.annualIncome - i.annualExpenses ≤ 0 ∧
        i.currentSavings < i.annualExpenses / (i.safeWithdrawalRate / 100))) ∧
    (0 < i.annualIncome - i.annualExpenses →
      i.currentSavings < i.annualExpenses / (i.safeWithdrawalRate / 100) →
      (Fire.calculateFIRE i).yearsToRetirement =
        ((Fire.calculateYearsToTarget i.currentSavings
          (i.annualIncome - i.annualExpenses) (i.expectedReturn / 100)
          (i.annualExpenses / (i.safeWithdrawalRate / 100)) : ℕ) : ℚ)) := by
  classical
  have hinternal := Fire.fireYearsInternal_eq i
  have hyears := Fire.cf_yearsToRetirement i
  by_cases hcond : i.annualIncome - i.annualExpenses ≤ 0 ∧
      i.currentSavings < i.annualExpenses / (i.safeWithdrawalRate / 100)
  · have hnone : Fire.fireYearsInternal i = none := by
      rw [hinternal, if_pos hcond]
    refine ⟨?_, ?_, ?_⟩
    · rw [hyears, hnone]
      exact ⟨fun _ => hcond, fun _ => rfl⟩
    · exact ⟨fun _ => hcond, fun _ => hnone⟩
    · intro hpos _
      exact absurd hcond.1 (not_le.mpr hpos)
  · have hsome : ∃ y : ℚ, Fire.fireYearsInternal i = some y ∧ 0 ≤ y := by
      rw [hinternal, if_neg hcond]
      by_cases h2 : i.annualExpenses / (i.safeWithdrawalRate / 100) ≤ i.currentSavings
      · exact ⟨0, by rw [if_pos h2], le_rfl⟩
      · refine ⟨_, by rw [if_neg h2], ?_⟩
        positivity
    obtain ⟨y, hy, hy0⟩ := hsome
    have hround : (0 : ℚ) ≤ round1 y := by
      unfold round1
      have h0 : (0 : ℤ) ≤ round (y * 10) := by
        rw [show (0 : ℤ) = round (0 : ℚ) from (round_zero).symm, round_eq,
          round_eq]
        exact Int.floor_le_floor (by linarith)
      have hc : (0 : ℚ) ≤ ((round (y * 10) : ℤ) : ℚ) := by exact_mod_cast h0
      linarith
    refine ⟨?_, ?_, ?_⟩
    · rw [hyears, hy]
      constructor
      · intro hcontra
        simp only at hcontra
        rw [hcontra] at hround
        norm_num at hround
      · intro hc
        exact absurd hc hcond
    · rw [hy]
      constructor
      · intro hcontra
        exact absurd hcontra (Option.some_ne_none y)
      · intro hc
        exact absurd hc hcond
    · intro hpos hlt
      have hnot2 : ¬ i.annualExpenses / (i.safeWithdrawalRate / 100) ≤
          i.currentSavings := not_le.mpr hlt
      have hval : Fire.fireYearsInternal i =
          some ((Fire.calculateYearsToTarget i.currentSavings
            (i.annualIncome - i.annualExpenses) (i.expectedReturn / 100)
            (i.annualExpenses / (i.safeWithdrawalRate / 100)) : ℕ) : ℚ) := by
        rw [hinternal, if_neg hcond, if_neg hnot2]
      rw [hyears, hval]
      simp only
      rw [round1_natCast]

/-- C8 witness: negative savings and insufficient current savings yield the
`-1` sentinel at a concrete input. -/
theorem fire_unreachable_sentinel_witness :
    (Fire.calculateFIRE c8Input).yearsToRetirement = -1 :=
  (fire_unreachable_sentinel c8Input (by norm_num [c8Input])).1.mpr
    (by norm_num [c8Input])

/-! ## C7: growth-rate outlier filtering -/

namespace Dividend

/-- Pushing the range filter of the growth-rate loop out of the
`filterMap`: the nested-`if` form of the source equals
"form the gated changes, then filter by the interval". -/
lemma growthRates_filter_eq (ds : List DividendData) (l : List (ℤ × ℤ)) :
    (l.filterMap fun p =>
      if 1 / 100 < yearTotal ds p.1 then
        if -(9 / 10) < (yearTotal ds p.2 - yearTotal ds p.1) / yearTotal ds p.1 ∧
            (yearTotal ds p.2 - yearTotal ds p.1) / yearTotal ds p.1 < 2 then
          some ((yearTotal ds p.2 - yearTotal ds p.1) / yearTotal ds p.1)
        else none
      else none) =
    (l.filterMap fun p =>
      if 1 / 100 < yearTotal ds p.1 then
        some ((yearTotal ds p.2 - yearTotal ds p.1) / yearTotal ds p.1)
      else none).filter fun g => decide (-(9 / 10) < g ∧ g < 2) := by
  induction l with
  | nil => rfl
  | cons p l ih =>
    by_cases hgate : 1 / 100 < yearTotal ds p.1
    · by_cases hint : -(9 / 10) <
            (yearTotal ds p.2 - yearTotal ds p.1) / yearTotal ds p.1 ∧
          (yearTotal ds p.2 - yearTotal ds p.1) / yearTotal ds p.1 < 2
      · rw [List.filterMap_cons_some (show _ = some ((yearTotal ds p.2 -
            yearTotal ds p.1) / yearTotal ds p.1) from by
              rw [if_pos hgate, if_pos hint]),
          List.filterMap_cons_some (show _ = some ((yearTotal ds p.2 -
            yearTotal ds p.1) / yearTotal ds p.1) from by rw [if_pos hgate]),
          List.filter_cons, if_pos (decide_eq_true hint), ih]
      · rw [List.filterMap_cons_none (show _ = none from by
            rw [if_pos hgate, if_neg hint]),
          List.filterMap_cons_some (show _ = some ((yearTotal ds p.2 -
            yearTotal ds p.1) / yearTotal ds p.1) from by rw [if_pos hgate]),
          List.filter_cons, if_neg (by simpa using hint), ih]
    · rw [List.filterMap_cons_none (show _ = none from by rw [if_neg hgate]),
        List.filterMap_cons_none (show _ = none from by rw [if_neg hgate]), ih]

end Dividend

/-- C7 counterexample: on `c7Series` the code returns `0.5` (only the last
transition qualifies: the earlier previous-year totals are at most `0.01`
and are skipped before the interval filter), while the claimed rule —
discard only the rates outside `(-0.9, 2.0)` — would keep the in-range
`+20%` transition too and return `0.35`. -/
theorem growth_rate_outlier_cex :
    Dividend.calculateGrowthRate c7Series = 1 / 2 ∧
    Dividend.growthRateClaimedSpec c7Series = 7 / 20 ∧
    Dividend.calculateGrowthRate c7Series ≠
      Dividend.growthRateClaimedSpec c7Series := by
  refine ⟨by decide, by decide, by decide⟩

/-- C7 (amended): `calculateGrowthRate` groups by calendar year, sums,
forms year-over-year changes only where the previous year's total exceeds
`0.01`, discards changes outside `(-0.9, 2.0)`, and averages the remainder
(`0` when nothing qualifies); on the claim's synthetic series the `+300%`
jump and the `-95%` drop are both excluded and only the remaining `+20%`
transition is averaged. -/
theorem growth_rate_outlier_filtering :
    (∀ ds : List Dividend.DividendData,
      Dividend.calculateGrowthRate ds = Dividend.growthRateAmendedSpec ds) ∧
    Dividend.calculateGrowthRate c7Synthetic = 1 / 5 := by
  constructor
  · intro ds
    unfold Dividend.calculateGrowthRate Dividend.growthRateAmendedSpec
    simp only [Dividend.growthRates_filter_eq ds]
  · decide

/-! ## C9: DRIP reinvests before growing dividend and price -/

/-- C9: in the DRIP projection loop, each year's dividend is received on the
current share count at the current per-share dividend, reinvested at the
current price, and only then are the per-share dividend and the price grown
for the next year.  Consequently after `k` years the per-share dividend is
`d0 * (1+g)^k`, the price is `p0 * (1+q)^k`, and the share count is
`shares * ∏ j < k, (1 + (d0/p0) * ((1+g)/(1+q))^j)` — the reinvestment
factor of year `j` uses the rates grown `j` times, not `j+1` times.  The
projection rows record exactly the pre-update state of each year. -/
theorem drip_reinvest_then_grow (info : Dividend.DividendHistory)
    (i : Dividend.DividendCalculatorInputs)
    (hp : info.stockInfo.price ≠ 0)
    (hq : 1 + Dividend.effectivePriceGrowthRate info i ≠ 0) :
    (∀ k : ℕ,
      (Dividend.dripState i.shares info.annualDividend info.stockInfo.price
          (Dividend.effectiveDividendGrowthRate info i)
          (Dividend.effectivePriceGrowthRate info i) k).currentAnnualDividendPerShare =
        info.annualDividend *
          (1 + Dividend.effectiveDividendGrowthRate info i) ^ k ∧
      (Dividend.dripState i.shares info.annualDividend info.stockInfo.price
          (Dividend.effectiveDividendGrowthRate info i)
          (Dividend.effectivePriceGrowthRate info i) k).currentStockPrice =
        info.stockInfo.price *
          (1 + Dividend.effectivePriceGrowthRate info i) ^ k ∧
      (Dividend.dripState i.shares info.annualDividend info.stockInfo.price
          (Dividend.effectiveDividendGrowthRate info i)
          (Dividend.effectivePriceGrowthRate info i) k).currentShares =
        i.shares * ∏ j ∈ Finset.range k,
          (1 + info.annualDividend / info.stockInfo.price *
            ((1 + Dividend.effectiveDividendGrowthRate info i) /
              (1 + Dividend.effectivePriceGrowthRate info i)) ^ j)) ∧
    (∀ k : ℕ, k < i.years →
      (Dividend.calculateDividendProjectionsWithDRIP info i).projections[k]? =
        some (Dividend.dripRecord i.shares info.annualDividend
          info.stockInfo.price (Dividend.effectiveDividendGrowthRate info i)
          (Dividend.effectivePriceGrowthRate info i) k)) := by
  set g : ℚ := Dividend.effectiveDividendGrowthRate info i with hg
  set q : ℚ := Dividend.effectivePriceGrowthRate info i with hqdef
  set d0 : ℚ := info.annualDividend with hd0
  set p0 : ℚ := info.stockInfo.price with hp0
  set s0 : ℚ := i.shares with hs0
  constructor
  · intro k
    induction k with
    | zero =>
      refine ⟨by simp [Dividend.dripState], by simp [Dividend.dripState],
        by simp [Dividend.dripState]⟩
    | succ k ih =>
      obtain ⟨ihd, ihp, ihs⟩ := ih
      have hstep : Dividend.dripState s0 d0 p0 g q (k + 1) =
          Dividend.dripStep g q (Dividend.dripState s0 d0 p0 g q k) := rfl
      have hqk : (1 + q) ^ k ≠ 0 := pow_ne_zero k hq
      refine ⟨?_, ?_, ?_⟩
      · rw [hstep]
        show (Dividend.dripState s0 d0 p0 g q k).currentAnnualDividendPerShare *
            (1 + g) = d0 * (1 + g) ^ (k + 1)
        rw [ihd, pow_succ]
        ring
      · rw [hstep]
        show (Dividend.dripState s0 d0 p0 g q k).currentStockPrice *
            (1 + q) = p0 * (1 + q) ^ (k + 1)
        rw [ihp, pow_succ]
        ring
      · rw [hstep]
        show (Dividend.dripState s0 d0 p0 g q k).currentShares +
            (Dividend.dripState s0 d0 p0 g q k).currentAnnualDividendPerShare *
              (Dividend.dripState s0 d0 p0 g q k).currentShares /
              (Dividend.dripState s0 d0 p0 g q k).currentStockPrice =
            s0 * ∏ j ∈ Finset.range (k + 1),
              (1 + d0 / p0 * ((1 + g) / (1 + q)) ^ j)
        rw [ihd, ihp, ihs, Finset.prod_range_succ, div_pow]
        field_simp
        ring
  · intro k hk
    have hproj : (Dividend.calculateDividendProjectionsWithDRIP info i).projections =
        (List.range i.years).map (Dividend.dripRecord s0 d0 p0 g q) := rfl
    rw [hproj, List.getElem?_map, List.getElem?_range hk]
    rfl


/-- C9 witness: the per-share dividend after two DRIP years at the concrete
history and inputs. -/
theorem drip_reinvest_then_grow_witness :
    (Dividend.dripState c9Inputs.shares c9Info.annualDividend
        c9Info.stockInfo.price
        (Dividend.effectiveDividendGrowthRate c9Info c9Inputs)
        (Dividend.effectivePriceGrowthRate c9Info c9Inputs) 2).currentAnnualDividendPerShare =
      c9Info.annualDividend *
        (1 + Dividend.effectiveDividendGrowthRate c9Info c9Inputs) ^ 2 :=
  ((drip_reinvest_then_grow c9Info c9Inputs (by decide) (by decide)).1 2).1
